import Mathlib

/-!
# Survey dashboard: filter, aggregation tables and inference sentences

A shallow embedding of the data pipeline of `src/components/Dashboard.js`:
the `filteredData`, `processData` and `mainInference` memoised computations of the
`Dashboard` component, over an explicit model of the JSON values the component reads.
-/

namespace Dashboard

/-! ## Data model -/

/-- A JavaScript value as produced by `response.json()`, plus `undefined`, which is what
reading an absent property gives.  For a number only whether it is zero is observed by the
code modelled here (truthiness), so the numeric value is kept as an integer. -/
inductive JsValue where
  | undefined
  | null
  | bool (b : Bool)
  | num (n : Int)
  | str (s : String)
  | arr (xs : List JsValue)
  | obj (fields : List (String × JsValue))

/-- One element of `surveyData`, taken to be a JSON object: the nine properties the
component reads from `item`.  An absent property reads as `JsValue.undefined`. -/
structure SurveyRecord where
  AgeGroup : JsValue
  Location : JsValue
  Education : JsValue
  ViolenceFamiliarity : JsValue
  ViolenceAgainstWomen : JsValue
  ViolenceAgainstWomenTypes : JsValue
  PhysicalViolence : JsValue
  PhysicalViolenceLocation : JsValue
  SexualViolenceBarrier : JsValue

/-- The record with every property absent. -/
def emptyRecord : SurveyRecord :=
  { AgeGroup := .undefined, Location := .undefined, Education := .undefined,
    ViolenceFamiliarity := .undefined, ViolenceAgainstWomen := .undefined,
    ViolenceAgainstWomenTypes := .undefined, PhysicalViolence := .undefined,
    PhysicalViolenceLocation := .undefined, SexualViolenceBarrier := .undefined }

/-- The JavaScript test `v === s` for a string `s`: strict equality never converts, so it
holds exactly when `v` is a string with the same sequence of code units. -/
def strictEq (v : JsValue) (s : String) : Bool :=
  match v with
  | .str t => t == s
  | _ => false

/-- Deciding whether a value is a given string, used to state counts over propositions. -/
instance decEqStr (v : JsValue) (s : String) : Decidable (v = JsValue.str s) :=
  match v with
  | .str t => if h : t = s then isTrue (by rw [h]) else isFalse (fun h' => h (by injection h'))
  | .undefined => isFalse (fun h => by cases h)
  | .null => isFalse (fun h => by cases h)
  | .bool _ => isFalse (fun h => by cases h)
  | .num _ => isFalse (fun h => by cases h)
  | .arr _ => isFalse (fun h => by cases h)
  | .obj _ => isFalse (fun h => by cases h)

/-! ## Filter -/

/-- The `filteredData` memo of `Dashboard`:
`surveyData.filter(item => (ageFilter === "All" || item.AgeGroup === ageFilter) && ...)`. -/
def filteredData (surveyData : List SurveyRecord)
    (ageFilter locationFilter educationFilter : String) : List SurveyRecord :=
  surveyData.filter fun item =>
    (ageFilter == "All" || strictEq item.AgeGroup ageFilter) &&
    (locationFilter == "All" || strictEq item.Location locationFilter) &&
    (educationFilter == "All" || strictEq item.Education educationFilter)

/-- The selection predicate in the words of the specification. -/
def Passes (age location education : String) (r : SurveyRecord) : Prop :=
  (age = "All" ∨ r.AgeGroup = JsValue.str age) ∧
  (location = "All" ∨ r.Location = JsValue.str location) ∧
  (education = "All" ∨ r.Education = JsValue.str education)

instance decPasses (age location education : String) (r : SurveyRecord) :
    Decidable (Passes age location education r) := by
  unfold Passes; infer_instance

/-! ## Aggregation tables -/

/-- One `{ name, value }` object of a chart series. -/
structure Entry where
  name : String
  value : Nat
  deriving DecidableEq, Repr

/-- The only exception the modelled code can raise: calling `.includes` on a value that has
no such method. -/
inductive JsError where
  | typeError
  deriving DecidableEq, Repr

/-- ToBoolean: the falsy values are `undefined`, `null`, `false`, zero and the empty string. -/
def truthy : JsValue → Bool
  | .undefined => false
  | .null => false
  | .bool b => b
  | .num n => n != 0
  | .str s => s != ""
  | .arr _ => true
  | .obj _ => true

/-- Whether `needle` occurs as a contiguous block of `hay`. -/
def occursIn (needle hay : List Char) : Bool :=
  hay.tails.any fun t => needle.isPrefixOf t

/-- The method call `v.includes(label)` with a string argument: substring search on a
string, element search (by strict equality, as the argument is a string) on an array, and a
`TypeError` on every other value, none of which has an `includes` method. -/
def includes (v : JsValue) (label : String) : Except JsError Bool :=
  match v with
  | .str s => .ok (occursIn label.data s.data)
  | .arr xs => .ok (xs.any fun x => strictEq x label)
  | _ => .error .typeError

/-- The callback body `item.X && item.X.includes(label)`, coerced to a boolean by `filter`:
a falsy `item.X` short-circuits to "not kept". -/
def andIncludes (v : JsValue) (label : String) : Except JsError Bool :=
  if truthy v then includes v label else .ok false

/-- `Array.prototype.filter` with a callback that may throw: the callback runs on the
elements in order and the first exception aborts the call. -/
def filterE {α : Type} (p : α → Except JsError Bool) : List α → Except JsError (List α)
  | [] => .ok []
  | x :: xs =>
    match p x with
    | .error e => .error e
    | .ok b =>
      match filterE p xs with
      | .error e => .error e
      | .ok ys => .ok (if b then x :: ys else ys)

/-- The count `filteredData.filter((item) => item.X === key).length`. -/
def countEq (fd : List SurveyRecord) (field : SurveyRecord → JsValue) (key : String) : Nat :=
  (fd.filter fun item => strictEq (field item) key).length

/-- The count `filteredData.filter((item) => item.X && item.X.includes(label)).length`. -/
def countIncludes (fd : List SurveyRecord) (field : SurveyRecord → JsValue) (label : String) :
    Except JsError Nat :=
  match filterE (fun item => andIncludes (field item) label) fd with
  | .error e => .error e
  | .ok ys => .ok ys.length

/-- `Array.prototype.sort(cmp)`: a stable sort (ECMAScript 2019 and later) that places `a`
before `b` when `cmp a b` is negative and keeps the original order when it is zero. -/
def jsSort {α : Type} (cmp : α → α → Int) (xs : List α) : List α :=
  xs.insertionSort fun a b => cmp a b ≤ 0

/-- The comparator `(a, b) => b.value - a.value`. -/
def byValueDesc (a b : Entry) : Int :=
  (b.value : Int) - (a.value : Int)

/-- The `ageDistribution` array of `processData`. -/
def ageDistribution (fd : List SurveyRecord) : List Entry :=
  [ { name := "Under 18", value := countEq fd (·.AgeGroup) "Under 18" },
    { name := "18-24", value := countEq fd (·.AgeGroup) "18–24" },
    { name := "25-34", value := countEq fd (·.AgeGroup) "25–34" },
    { name := "35-44", value := countEq fd (·.AgeGroup) "35–44" },
    { name := "45-54", value := countEq fd (·.AgeGroup) "45–54" },
    { name := "55-64", value := countEq fd (·.AgeGroup) "55–64" },
    { name := "65 and above", value := countEq fd (·.AgeGroup) "65 and above" } ]

/-- The `violenceFamiliarity` array of `processData`. -/
def violenceFamiliarity (fd : List SurveyRecord) : List Entry :=
  [ { name := "Very familiar", value := countEq fd (·.ViolenceFamiliarity) "Very familiar" },
    { name := "Somewhat familiar",
      value := countEq fd (·.ViolenceFamiliarity) "Somewhat familiar" },
    { name := "Not very familiar",
      value := countEq fd (·.ViolenceFamiliarity) "Not very familiar" },
    { name := "Not at all familiar",
      value := countEq fd (·.ViolenceFamiliarity) "Not at all familiar" } ]

/-- The `violenceTypes` array of `processData`, before `.sort`. -/
def violenceTypesUnsorted (fd : List SurveyRecord) : Except JsError (List Entry) := do
  let v0 ← countIncludes fd (·.ViolenceAgainstWomenTypes) "Physical assault"
  let v1 ← countIncludes fd (·.ViolenceAgainstWomenTypes) "Sexual assault or rape"
  let v2 ← countIncludes fd (·.ViolenceAgainstWomenTypes) "Verbal abuse or name-calling"
  let v3 ← countIncludes fd (·.ViolenceAgainstWomenTypes)
    "Isolating from friends/family, controlling finances"
  let v4 ← countIncludes fd (·.ViolenceAgainstWomenTypes)
    "Stalking or persistent unwanted attention"
  let v5 ← countIncludes fd (·.ViolenceAgainstWomenTypes) "Online harassment or cyberbullying"
  pure [ { name := "Physical assault", value := v0 },
         { name := "Sexual assault", value := v1 },
         { name := "Verbal abuse", value := v2 },
         { name := "Isolation", value := v3 },
         { name := "Stalking", value := v4 },
         { name := "Online harassment", value := v5 } ]

/-- The `violenceTypes` array of `processData`: the six entries, then
`.sort((a, b) => b.value - a.value)`. -/
def violenceTypes (fd : List SurveyRecord) : Except JsError (List Entry) := do
  let t ← violenceTypesUnsorted fd
  pure (jsSort byValueDesc t)

/-- The `physicalViolencePrevalence` array of `processData`. -/
def physicalViolencePrevalence (fd : List SurveyRecord) : List Entry :=
  [ { name := "Very common", value := countEq fd (·.PhysicalViolence) "Very common" },
    { name := "Somewhat common", value := countEq fd (·.PhysicalViolence) "Somewhat common" },
    { name := "Not very common", value := countEq fd (·.PhysicalViolence) "Not very common" },
    { name := "Not at all common",
      value := countEq fd (·.PhysicalViolence) "Not at all common" },
    { name := "Unsure", value := countEq fd (·.PhysicalViolence) "Unsure" } ]

/-- The `violenceLocation` array of `processData`, before `.sort`. -/
def violenceLocationUnsorted (fd : List SurveyRecord) : Except JsError (List Entry) := do
  let v0 ← countIncludes fd (·.PhysicalViolenceLocation) "At home"
  let v1 ← countIncludes fd (·.PhysicalViolenceLocation) "In public spaces"
  let v2 ← countIncludes fd (·.PhysicalViolenceLocation) "At work"
  let v3 ← countIncludes fd (·.PhysicalViolenceLocation) "In educational institutions"
  pure [ { name := "At home", value := v0 },
         { name := "In public spaces", value := v1 },
         { name := "At work", value := v2 },
         { name := "In educational institutions", value := v3 } ]

/-- The `violenceLocation` array of `processData`. -/
def violenceLocation (fd : List SurveyRecord) : Except JsError (List Entry) := do
  let t ← violenceLocationUnsorted fd
  pure (jsSort byValueDesc t)

/-- The `reportingBarriers` array of `processData`, before `.sort`. -/
def reportingBarriersUnsorted (fd : List SurveyRecord) : Except JsError (List Entry) := do
  let v0 ← countIncludes fd (·.SexualViolenceBarrier) "Fear of retaliation"
  let v1 ← countIncludes fd (·.SexualViolenceBarrier) "Shame or stigma"
  let v2 ← countIncludes fd (·.SexualViolenceBarrier) "Lack of trust in authorities"
  let v3 ← countIncludes fd (·.SexualViolenceBarrier) "Fear of not being believed"
  let v4 ← countIncludes fd (·.SexualViolenceBarrier)
    "Lack of awareness of rights and resources"
  pure [ { name := "Fear of retaliation", value := v0 },
         { name := "Shame or stigma", value := v1 },
         { name := "Lack of trust in authorities", value := v2 },
         { name := "Fear of not being believed", value := v3 },
         { name := "Lack of awareness of rights", value := v4 } ]

/-- The `reportingBarriers` array of `processData`. -/
def reportingBarriers (fd : List SurveyRecord) : Except JsError (List Entry) := do
  let t ← reportingBarriersUnsorted fd
  pure (jsSort byValueDesc t)

/-- The object returned by `processData`. -/
structure Tables where
  ageDistribution : List Entry
  violenceFamiliarity : List Entry
  violenceTypes : List Entry
  physicalViolencePrevalence : List Entry
  violenceLocation : List Entry
  reportingBarriers : List Entry
  deriving DecidableEq, Repr

/-- The `processData` memo of `Dashboard`: the six arrays are built in source order, so an
exception in one of the multi-label tables leaves no table at all. -/
def processData (fd : List SurveyRecord) : Except JsError Tables := do
  let t0 := ageDistribution fd
  let t1 := violenceFamiliarity fd
  let t2 ← violenceTypes fd
  let t3 := physicalViolencePrevalence fd
  let t4 ← violenceLocation fd
  let t5 ← reportingBarriers fd
  pure { ageDistribution := t0,
         violenceFamiliarity := t1,
         violenceTypes := t2,
         physicalViolencePrevalence := t3,
         violenceLocation := t4,
         reportingBarriers := t5 }

/-! ## Numbers and the headline -/

/-- A non-negative JavaScript number (IEEE 754 binary64): `NaN`, `+Infinity`, or the finite
value `m * 2 ^ e`. -/
inductive JsNumber where
  | nan
  | inf
  | fin (m : Nat) (e : Int)
  deriving DecidableEq, Repr

/-- The numerator of `2 ^ e` as a fraction of naturals. -/
def pow2Num (e : Int) : Nat := 2 ^ e.toNat

/-- The denominator of `2 ^ e` as a fraction of naturals. -/
def pow2Den (e : Int) : Nat := 2 ^ (-e).toNat

/-- The integer nearest to `a / b`, a tie going to the even one (round-half-even). -/
def divRoundEven (a b : Nat) : Nat :=
  let q := a / b
  let r := a % b
  if 2 * r < b then q else if b < 2 * r then q + 1 else if q % 2 = 0 then q else q + 1

/-- Halving `n` until it is below 2, at most `fuel` times, counting the halvings. -/
def bitLogAux : Nat → Nat → Nat
  | 0, _ => 0
  | fuel + 1, n => if n < 2 then 0 else bitLogAux fuel (n / 2) + 1

/-- The position of the leading bit of `n`: `2 ^ bitLog n ≤ n < 2 ^ (bitLog n + 1)` for
positive `n`. -/
def bitLog (n : Nat) : Nat := bitLogAux n n

/-- The binary exponent of `a / b`: the integer `E` with `2 ^ E ≤ a / b < 2 ^ (E + 1)`, for
positive `a` and `b`. -/
def floorLog2 (a b : Nat) : Int :=
  let d : Int := (bitLog a : Int) - (bitLog b : Int)
  if b * pow2Num d ≤ a * pow2Den d then d else d - 1

/-- The binary64 number nearest to the positive rational `a / b` (round to nearest, ties to
even): 53 significant bits, the unit in the last place no smaller than `2 ^ (-1074)`
(subnormal range), and `+Infinity` once the rounded value reaches `2 ^ 1024`. -/
def roundBinary64 (a b : Nat) : JsNumber :=
  let e : Int := max (floorLog2 a b - 52) (-1074)
  let m := divRoundEven (a * pow2Den e) (b * pow2Num e)
  if 971 < e ∨ (e = 971 ∧ 2 ^ 53 ≤ m) then .inf else .fin m e

/-- The number value of a non-negative integer below `2 ^ 53`, such as an array length. -/
def JsNumber.ofNat (n : Nat) : JsNumber := .fin n 0

/-- The operator `x / y` on non-negative numbers. -/
def jsDiv : JsNumber → JsNumber → JsNumber
  | .nan, _ => .nan
  | _, .nan => .nan
  | .inf, .inf => .nan
  | .inf, .fin _ _ => .inf
  | .fin _ _, .inf => .fin 0 0
  | .fin m1 e1, .fin m2 e2 =>
    if m2 = 0 then (if m1 = 0 then .nan else .inf)
    else if m1 = 0 then .fin 0 0
    else roundBinary64 (m1 * pow2Num (e1 - e2)) (m2 * pow2Den (e1 - e2))

/-- The operator `x * y` on non-negative numbers. -/
def jsMul : JsNumber → JsNumber → JsNumber
  | .nan, _ => .nan
  | _, .nan => .nan
  | .inf, .inf => .inf
  | .inf, .fin m _ => if m = 0 then .nan else .inf
  | .fin m _, .inf => if m = 0 then .nan else .inf
  | .fin m1 e1, .fin m2 e2 =>
    if m1 = 0 ∨ m2 = 0 then .fin 0 0
    else roundBinary64 (m1 * m2 * pow2Num (e1 + e2)) (pow2Den (e1 + e2))

/-- The integer `n` for which `n / 10 - x` is closest to zero, the larger one when two are
equally close, for `x = m * 2 ^ e`: the floor of `10 * x + 1 / 2`. -/
def nearestTenths (m : Nat) (e : Int) : Nat :=
  (20 * (m * pow2Num e) + pow2Den e) / (2 * pow2Den e)

/-- The method call `x.toFixed(1)` for a non-negative number below `1e21`: with `n` the
integer for which `n / 10 - x` is closest to zero (the larger one when two are equally
close), the decimal digits of `n` with a point before the last digit (`0` gives `0.0`). -/
def toFixed1 : JsNumber → String
  | .nan => "NaN"
  | .inf => "Infinity"
  | .fin m e => toString (nearestTenths m e / 10) ++ "." ++ toString (nearestTenths m e % 10)

/-- The `mainInference` memo of `Dashboard`.  `percentage` is the string returned by
`toFixed(1)`, or the number `0`, which the template literal prints as `0`. -/
def mainInference (fd : List SurveyRecord) : String :=
  let totalResponses := fd.length
  let experiencedViolence := countEq fd (·.ViolenceAgainstWomen) "Yes"
  let percentage : String :=
    if totalResponses > 0 then
      toFixed1 (jsMul (jsDiv (.ofNat experiencedViolence) (.ofNat totalResponses)) (.ofNat 100))
    else "0"
  percentage ++ "% of women surveyed have experienced some form of violence."

/-! ## The specification's vocabulary -/

/-- A field "is present and contains the label": a string of which the label is a
substring, or an array with the label among its elements. -/
def ContainsLabel (v : JsValue) (label : String) : Prop :=
  match v with
  | .str s => label.data <:+: s.data
  | .arr xs => JsValue.str label ∈ xs
  | _ => False

instance decContainsLabel (v : JsValue) (label : String) : Decidable (ContainsLabel v label) :=
  match v with
  | .str s => (inferInstance : Decidable (label.data <:+: s.data))
  | .arr xs =>
    decidable_of_iff (∃ x ∈ xs, x = JsValue.str label)
      ⟨fun ⟨_, hx, he⟩ => show JsValue.str label ∈ xs from he ▸ hx, fun h => ⟨_, h, rfl⟩⟩
  | .undefined => isFalse (fun h => h)
  | .null => isFalse (fun h => h)
  | .bool _ => isFalse (fun h => h)
  | .num _ => isFalse (fun h => h)
  | .obj _ => isFalse (fun h => h)

/-- The number of records whose field is present and contains the label. -/
def containsCount (fd : List SurveyRecord) (field : SurveyRecord → JsValue) (label : String) :
    Nat :=
  (fd.filter fun r => decide (ContainsLabel (field r) label)).length

/-- The number of records whose field is exactly the string `key`. -/
def equalCount (fd : List SurveyRecord) (field : SurveyRecord → JsValue) (key : String) : Nat :=
  (fd.filter fun r => decide (field r = JsValue.str key)).length

/-- A multi-label field of the data model: absent (or otherwise falsy), a string, or an
array.  These are the values on which `item.X && item.X.includes(label)` does not throw. -/
def Includable (v : JsValue) : Prop :=
  match v with
  | .str _ => True
  | .arr _ => True
  | w => truthy w = false

instance decIncludable (v : JsValue) : Decidable (Includable v) :=
  match v with
  | .str _ => isTrue trivial
  | .arr _ => isTrue trivial
  | .undefined => isTrue rfl
  | .null => isTrue rfl
  | .bool b => (inferInstance : Decidable (truthy (JsValue.bool b) = false))
  | .num n => (inferInstance : Decidable (truthy (JsValue.num n) = false))
  | .obj _ => isFalse (fun h => Bool.noConfusion h)

/-- Every record has its three multi-label fields in the shape of the data model. -/
def WellTyped (fd : List SurveyRecord) : Prop :=
  ∀ r ∈ fd, Includable r.ViolenceAgainstWomenTypes ∧ Includable r.PhysicalViolenceLocation ∧
    Includable r.SexualViolenceBarrier

instance decWellTyped (fd : List SurveyRecord) : Decidable (WellTyped fd) := by
  unfold WellTyped; infer_instance

/-- Chart name and band key of the seven age bands (the keys use U+2013). -/
def ageBands : List (String × String) :=
  [("Under 18", "Under 18"), ("18-24", "18–24"), ("25-34", "25–34"), ("35-44", "35–44"),
   ("45-54", "45–54"), ("55-64", "55–64"), ("65 and above", "65 and above")]

/-- The four familiarity levels. -/
def familiarityLevels : List String :=
  ["Very familiar", "Somewhat familiar", "Not very familiar", "Not at all familiar"]

/-- The five prevalence levels. -/
def prevalenceLevels : List String :=
  ["Very common", "Somewhat common", "Not very common", "Not at all common", "Unsure"]

/-- Chart name and full label of the six violence types, in source order. -/
def violenceTypeLabels : List (String × String) :=
  [("Physical assault", "Physical assault"),
   ("Sexual assault", "Sexual assault or rape"),
   ("Verbal abuse", "Verbal abuse or name-calling"),
   ("Isolation", "Isolating from friends/family, controlling finances"),
   ("Stalking", "Stalking or persistent unwanted attention"),
   ("Online harassment", "Online harassment or cyberbullying")]

/-- The four violence locations, in source order (name and label coincide). -/
def violenceLocationLabels : List (String × String) :=
  [("At home", "At home"), ("In public spaces", "In public spaces"), ("At work", "At work"),
   ("In educational institutions", "In educational institutions")]

/-- Chart name and full label of the five reporting barriers, in source order. -/
def reportingBarrierLabels : List (String × String) :=
  [("Fear of retaliation", "Fear of retaliation"),
   ("Shame or stigma", "Shame or stigma"),
   ("Lack of trust in authorities", "Lack of trust in authorities"),
   ("Fear of not being believed", "Fear of not being believed"),
   ("Lack of awareness of rights", "Lack of awareness of rights and resources")]

/-- The table a list of (name, label) pairs describes: one entry per pair, holding the
number of records whose field contains the label. -/
def labelTable (fd : List SurveyRecord) (field : SurveyRecord → JsValue)
    (labels : List (String × String)) : List Entry :=
  labels.map fun p => { name := p.1, value := containsCount fd field p.2 }

/-- Non-increasing values from first entry to last. -/
def Descending (t : List Entry) : Prop :=
  t.Pairwise fun a b => b.value ≤ a.value

/-- The value attached to a name in a table, if the name occurs. -/
def valueOf (t : List Entry) (name : String) : Option Nat :=
  (t.find? fun e => e.name == name).map (·.value)

/-- The number of records that rate physical violence "Very common" or "Somewhat common". -/
def commonCount (fd : List SurveyRecord) : Nat :=
  (fd.filter fun r => decide (r.PhysicalViolence = JsValue.str "Very common" ∨
    r.PhysicalViolence = JsValue.str "Somewhat common")).length

/-- The text of a percentage of `n` tenths: the integer part, a point, one digit. -/
def tenthsText (n : Nat) : String :=
  toString (n / 10) ++ "." ++ toString (n % 10)

/-! ## Example inputs -/

/-- Four records with age groups 18–24, 18–24, 25–34 and Under 18. -/
def ageExample : List SurveyRecord :=
  [ { emptyRecord with AgeGroup := (JsValue.str "18–24") },
    { emptyRecord with AgeGroup := (JsValue.str "18–24") },
    { emptyRecord with AgeGroup := (JsValue.str "25–34") },
    { emptyRecord with AgeGroup := (JsValue.str "Under 18") } ]

/-- The membership example: three records whose violence types are one label, two labels
and the empty array. -/
def membershipExample : List SurveyRecord :=
  [ { emptyRecord with ViolenceAgainstWomenTypes := (JsValue.arr [.str "Verbal abuse or name-calling"]) },
    { emptyRecord with ViolenceAgainstWomenTypes :=
        (JsValue.arr [.str "Physical assault", .str "Stalking or persistent unwanted attention"]) },
    { emptyRecord with ViolenceAgainstWomenTypes := (JsValue.arr []) } ]

/-- Four records, one of which answered "Yes" to having experienced violence. -/
def headlineExample : List SurveyRecord :=
  [ { emptyRecord with ViolenceAgainstWomen := (JsValue.str "Yes") },
    { emptyRecord with ViolenceAgainstWomen := (JsValue.str "No") },
    emptyRecord,
    { emptyRecord with ViolenceAgainstWomen := (JsValue.str "yes") } ]

/-- Fully answered records: every exact-match field holds one of its enum values. -/
def answeredExample : List SurveyRecord :=
  [ { AgeGroup := .str "18–24", Location := .str "Urban", Education := .undefined,
      ViolenceFamiliarity := .str "Very familiar", ViolenceAgainstWomen := .undefined,
      ViolenceAgainstWomenTypes := .undefined, PhysicalViolence := .str "Unsure",
      PhysicalViolenceLocation := .undefined, SexualViolenceBarrier := .undefined },
    { AgeGroup := .str "65 and above", Location := .str "Rural", Education := .undefined,
      ViolenceFamiliarity := .str "Not at all familiar", ViolenceAgainstWomen := .undefined,
      ViolenceAgainstWomenTypes := .undefined, PhysicalViolence := .str "Very common",
      PhysicalViolenceLocation := .undefined, SexualViolenceBarrier := .undefined },
    { AgeGroup := .str "18–24", Location := .str "Rural", Education := .undefined,
      ViolenceFamiliarity := .str "Very familiar", ViolenceAgainstWomen := .undefined,
      ViolenceAgainstWomenTypes := .undefined, PhysicalViolence := .str "Somewhat common",
      PhysicalViolenceLocation := .undefined, SexualViolenceBarrier := .undefined } ]

/-- One record with a number, a boolean and a nested object in its multi-label fields. -/
def malformedExample : List SurveyRecord :=
  [ { emptyRecord with ViolenceAgainstWomenTypes := (JsValue.num 5),
                       PhysicalViolenceLocation := (JsValue.bool true),
                       SexualViolenceBarrier := (JsValue.obj []) } ]

/-- Records whose exact-match fields are malformed or missing and whose multi-label fields
are missing, null, a string or an array. -/
def tolerantExample : List SurveyRecord :=
  [ { AgeGroup := .num 42, Location := .obj [], Education := .bool true,
      ViolenceFamiliarity := .arr [], ViolenceAgainstWomen := .bool true,
      ViolenceAgainstWomenTypes := .undefined, PhysicalViolence := .num 0,
      PhysicalViolenceLocation := .null, SexualViolenceBarrier := .str "Fear of retaliation" },
    { AgeGroup := .str "18–24", Location := .undefined, Education := .undefined,
      ViolenceFamiliarity := .undefined, ViolenceAgainstWomen := .str "Yes",
      ViolenceAgainstWomenTypes := .arr [.num 1, .str "Physical assault"],
      PhysicalViolence := .str "Very common",
      PhysicalViolenceLocation := .str "At home, At work", SexualViolenceBarrier := .bool false } ]

/-! ## Bullets -/

/-- The numerator `physicalViolenceCommon` of `generateInferences`. -/
def physicalViolenceCommon (fd : List SurveyRecord) : Nat :=
  (fd.filter fun item =>
    strictEq item.PhysicalViolence "Very common" ||
      strictEq item.PhysicalViolence "Somewhat common").length

/-- The numerator `homeViolence` of `generateInferences`. -/
def homeViolence (fd : List SurveyRecord) : Except JsError Nat :=
  countIncludes fd (·.PhysicalViolenceLocation) "At home"

/-- The numerator `fearRetaliation` of `generateInferences`. -/
def fearRetaliation (fd : List SurveyRecord) : Except JsError Nat :=
  countIncludes fd (·.SexualViolenceBarrier) "Fear of retaliation"

/-- The guarded percentage written three times in `generateInferences`:
`totalResponses > 0 ? ((matching / totalResponses) * 100).toFixed(1) : 0`, as the text the
template literal prints (the number `0` prints as `0`). -/
def guardedPercentage (matching totalResponses : Nat) : String :=
  if totalResponses > 0 then
    toFixed1 (jsMul (jsDiv (.ofNat matching) (.ofNat totalResponses)) (.ofNat 100))
  else "0"

/-- The `generateInferences` memo of `Dashboard`. -/
def generateInferences (fd : List SurveyRecord) : Except JsError (List String) := do
  let totalResponses := fd.length
  let physicalViolencePercentage := guardedPercentage (physicalViolenceCommon fd) totalResponses
  let homeViolence ← homeViolence fd
  let homeViolencePercentage := guardedPercentage homeViolence totalResponses
  let fearRetaliation ← fearRetaliation fd
  let fearRetaliationPercentage := guardedPercentage fearRetaliation totalResponses
  pure [ physicalViolencePercentage ++
           "% of respondents believe physical violence against women is common in their community.",
         homeViolencePercentage ++
           "% of participants identify the home as a common location for violence against women.",
         fearRetaliationPercentage ++
           "% of respondents cite fear of retaliation as a major barrier to reporting sexual violence." ]

/-! ## Data loading and what is shown -/

/-- How the single `fetch` of `fetchData` ends: the promise rejects (network error), or a
response arrives with its `ok` flag and a body that `response.json()` parses to an array of
records (`some`) or fails to parse (`none`). -/
inductive FetchResult where
  | rejected
  | response (ok : Bool) (json : Option (List SurveyRecord))

/-- A fetch that fails: network error, non-ok HTTP status, or a body that does not parse. -/
def IsFailure (r : FetchResult) : Prop :=
  r = .rejected ∨ (∃ json, r = .response false json) ∨ r = .response true none

/-- The four `useState` cells of `Dashboard`. -/
structure DashboardState where
  surveyData : List SurveyRecord
  ageFilter : String
  locationFilter : String
  educationFilter : String

/-- The initial values of the `useState` cells of `Dashboard`. -/
def initialState : DashboardState :=
  { surveyData := [], ageFilter := "All", locationFilter := "All", educationFilter := "All" }

/-- The `fetchData` callback of `Dashboard`: the new state and the lines written with
`console.log`.  Every exit through `catch` only logs. -/
def fetchData (s : DashboardState) (r : FetchResult) : DashboardState × List String :=
  match r with
  | .rejected => (s, ["Please try again later."])
  | .response ok json =>
    if !ok then (s, ["Please try again later."])
    else
      match json with
      | none => (s, ["Please try again later."])
      | some data => ({ s with surveyData := data }, [])

/-- What a component returns to the page, as far as loading state, error message and
response counts go: the loading placeholder, the error line, or the dashboard with its
"Total Responses" figures (the filtered count, and the total where it is shown). -/
inductive Screen where
  | loading
  | error (message : String)
  | dashboard (filteredCount : Nat) (totalCount : Option Nat)
  deriving DecidableEq, Repr

/-- The page `Dashboard` returns: always the dashboard, headed
`Total Responses: {filteredData?.length} / {surveyData?.length}`. -/
def render (s : DashboardState) : Screen :=
  .dashboard (filteredData s.surveyData s.ageFilter s.locationFilter s.educationFilter).length
    (some s.surveyData.length)

/-! ## The draft variant (`src/test.js`) -/

namespace Draft

/-- The five `useState` cells of `SurveyInsightsDashboard`. -/
structure State where
  error : String
  loading : Bool
  surveyData : List SurveyRecord
  ageFilter : String
  locationFilter : String

/-- The initial values of the `useState` cells of `SurveyInsightsDashboard`. -/
def initialState : State :=
  { error := "", loading := true, surveyData := [], ageFilter := "All",
    locationFilter := "All" }

/-- The `fetchData` callback of the draft: `catch` stores the message with `setError`, and
`finally` clears `loading` on every path. -/
def fetchData (s : State) (r : FetchResult) : State :=
  let afterTry : State :=
    match r with
    | .rejected => { s with error := "Please try again later." }
    | .response ok json =>
      if !ok then { s with error := "Please try again later." }
      else
        match json with
        | none => { s with error := "Please try again later." }
        | some data => { s with surveyData := data }
  { afterTry with loading := false }

/-- The `filteredData` memo of the draft: age and location only. -/
def filteredData (surveyData : List SurveyRecord) (ageFilter locationFilter : String) :
    List SurveyRecord :=
  surveyData.filter fun item =>
    (ageFilter == "All" || strictEq item.AgeGroup ageFilter) &&
    (locationFilter == "All" || strictEq item.Location locationFilter)

/-- The page the draft returns: `if (loading) ...; if (error) ...;` then the dashboard, headed
`Total Responses: {filteredData.length}`. -/
def render (s : State) : Screen :=
  if s.loading then .loading
  else if s.error != "" then .error s.error
  else .dashboard (filteredData s.surveyData s.ageFilter s.locationFilter).length none

/-- The `ageDistribution` array of the draft's `processData`. -/
def ageDistribution (fd : List SurveyRecord) : List Entry :=
  [ { name := "Under 18", value := countEq fd (·.AgeGroup) "Under 18" },
    { name := "18-24", value := countEq fd (·.AgeGroup) "18–24" },
    { name := "25-34", value := countEq fd (·.AgeGroup) "25–34" },
    { name := "35-44", value := countEq fd (·.AgeGroup) "35–44" },
    { name := "45-54", value := countEq fd (·.AgeGroup) "45–54" },
    { name := "55-64", value := countEq fd (·.AgeGroup) "55–64" },
    { name := "65 and above", value := countEq fd (·.AgeGroup) "65 and above" } ]

/-- The `violenceFamiliarity` array of the draft's `processData`. -/
def violenceFamiliarity (fd : List SurveyRecord) : List Entry :=
  [ { name := "Very familiar", value := countEq fd (·.ViolenceFamiliarity) "Very familiar" },
    { name := "Somewhat familiar",
      value := countEq fd (·.ViolenceFamiliarity) "Somewhat familiar" },
    { name := "Not very familiar",
      value := countEq fd (·.ViolenceFamiliarity) "Not very familiar" },
    { name := "Not at all familiar",
      value := countEq fd (·.ViolenceFamiliarity) "Not at all familiar" } ]

/-- The `violenceTypes` array of the draft's `processData`: six entries, then
`.sort((a, b) => b.value - a.value)`. -/
def violenceTypes (fd : List SurveyRecord) : Except JsError (List Entry) := do
  let v0 ← countIncludes fd (·.ViolenceAgainstWomenTypes) "Physical assault"
  let v1 ← countIncludes fd (·.ViolenceAgainstWomenTypes) "Sexual assault or rape"
  let v2 ← countIncludes fd (·.ViolenceAgainstWomenTypes) "Verbal abuse or name-calling"
  let v3 ← countIncludes fd (·.ViolenceAgainstWomenTypes)
    "Isolating from friends/family, controlling finances"
  let v4 ← countIncludes fd (·.ViolenceAgainstWomenTypes)
    "Stalking or persistent unwanted attention"
  let v5 ← countIncludes fd (·.ViolenceAgainstWomenTypes) "Online harassment or cyberbullying"
  pure (jsSort byValueDesc
    [ { name := "Physical assault", value := v0 },
      { name := "Sexual assault", value := v1 },
      { name := "Verbal abuse", value := v2 },
      { name := "Isolation", value := v3 },
      { name := "Stalking", value := v4 },
      { name := "Online harassment", value := v5 } ])

/-- The object returned by the draft's `processData`. -/
structure Tables where
  ageDistribution : List Entry
  violenceFamiliarity : List Entry
  violenceTypes : List Entry
  deriving DecidableEq, Repr

/-- The `processData` memo of the draft. -/
def processData (fd : List SurveyRecord) : Except JsError Tables := do
  let t0 := ageDistribution fd
  let t1 := violenceFamiliarity fd
  let t2 ← violenceTypes fd
  pure { ageDistribution := t0, violenceFamiliarity := t1, violenceTypes := t2 }

/-- The unguarded percentage of the draft: `((matching / total) * 100).toFixed(1)`. -/
def percentage (matching total : Nat) : String :=
  toFixed1 (jsMul (jsDiv (.ofNat matching) (.ofNat total)) (.ofNat 100))

/-- The `generateInferences` memo of the draft. -/
def generateInferences (fd : List SurveyRecord) : Except JsError (List String) := do
  let totalResponses := fd.length
  let under25 := fd.filter fun item =>
    strictEq item.AgeGroup "Under 18" || strictEq item.AgeGroup "18–24"
  let unsafeAtWork ← countIncludes under25 (·.ViolenceAgainstWomenTypes)
    "Denial of education or employment opportunities"
  let unsafeAtWorkPercentage := percentage unsafeAtWork under25.length
  let verbalAbuse ← countIncludes fd (·.ViolenceAgainstWomenTypes) "Verbal abuse or name-calling"
  let verbalAbusePercentage := percentage verbalAbuse totalResponses
  let onlineHarassment ← countIncludes fd (·.ViolenceAgainstWomenTypes)
    "Online harassment or cyberbullying"
  let onlineHarassmentPercentage := percentage onlineHarassment totalResponses
  pure [ unsafeAtWorkPercentage ++
           "% of women under the age of 25 feel unsafe at their workplace or educational institution.",
         verbalAbusePercentage ++
           "% of respondents recognize verbal abuse as a form of violence against women.",
         onlineHarassmentPercentage ++
           "% of participants identify online harassment as a significant issue for women." ]

/-- The `mainInference` memo of the draft: no guard on `totalResponses`. -/
def mainInference (fd : List SurveyRecord) : String :=
  let totalResponses := fd.length
  let experiencedViolence := countEq fd (·.ViolenceAgainstWomen) "Yes"
  let percentage : String :=
    toFixed1 (jsMul (jsDiv (.ofNat experiencedViolence) (.ofNat totalResponses)) (.ofNat 100))
  percentage ++ "% of women surveyed have experienced some form of violence."

end Draft

/-! ## Basic lemmas -/

theorem strictEq_iff (v : JsValue) (s : String) : strictEq v s = true ↔ v = JsValue.str s := by
  cases v <;> simp [strictEq]

theorem passes_iff (a l e : String) (r : SurveyRecord) :
    ((a == "All" || strictEq r.AgeGroup a) && (l == "All" || strictEq r.Location l) &&
      (e == "All" || strictEq r.Education e)) = true ↔ Passes a l e r := by
  simp [Passes, strictEq_iff, and_assoc]


theorem filteredData_eq_filter (rs : List SurveyRecord) (a l e : String) :
    filteredData rs a l e = rs.filter (fun r => decide (Passes a l e r)) := by
  unfold filteredData
  apply List.filter_congr
  intro r _
  rw [Bool.eq_iff_iff, passes_iff]
  simp

theorem filteredData_age (rs : List SurveyRecord) (v : String) (hv : v ≠ "All") :
    filteredData rs v "All" "All" = rs.filter (fun r => strictEq r.AgeGroup v) := by
  unfold filteredData
  apply List.filter_congr
  intro r _
  simp [hv]

theorem filteredData_location (rs : List SurveyRecord) (v : String) (hv : v ≠ "All") :
    filteredData rs "All" v "All" = rs.filter (fun r => strictEq r.Location v) := by
  unfold filteredData
  apply List.filter_congr
  intro r _
  simp [hv]

theorem filteredData_education (rs : List SurveyRecord) (v : String) (hv : v ≠ "All") :
    filteredData rs "All" "All" v = rs.filter (fun r => strictEq r.Education v) := by
  unfold filteredData
  apply List.filter_congr
  intro r _
  simp [hv]

theorem countEq_cons (r : SurveyRecord) (rs : List SurveyRecord)
    (field : SurveyRecord → JsValue) (key : String) :
    countEq (r :: rs) field key =
      (if strictEq (field r) key then 1 else 0) + countEq rs field key := by
  unfold countEq
  by_cases h : strictEq (field r) key = true
  · simp [h, Nat.add_comm]
  · simp [h]

/-- A value is strictly equal to at most one string of a duplicate-free list: the matches
and the "none of them" case add up to one. -/
theorem indicator_sum (x : JsValue) (vals : List String) (hnd : vals.Nodup) :
    (vals.map fun v => if strictEq x v then 1 else 0).sum +
      (if ∀ v ∈ vals, x ≠ JsValue.str v then 1 else 0) = 1 := by
  induction vals with
  | nil => simp
  | cons w ws ih =>
    have hw : w ∉ ws := (List.nodup_cons.mp hnd).1
    have ih' := ih (List.nodup_cons.mp hnd).2
    by_cases hx : x = JsValue.str w
    · subst hx
      have hzero : (ws.map fun v => if strictEq (JsValue.str w) v then 1 else 0).sum = 0 := by
        apply List.sum_eq_zero
        intro n hn
        obtain ⟨v, hv, rfl⟩ := List.mem_map.mp hn
        have : w ≠ v := fun h => hw (h ▸ hv)
        simp [strictEq, this]
      rw [List.map_cons, List.sum_cons, hzero]
      simp [strictEq]
    · have hs : strictEq x w = false := by
        rw [← Bool.not_eq_true, strictEq_iff]; exact hx
      simp only [List.map_cons, List.sum_cons, hs, List.mem_cons, forall_eq_or_imp]
      simpa [hx] using ih'

theorem countEq_partition (rs : List SurveyRecord) (field : SurveyRecord → JsValue)
    (vals : List String) (hnd : vals.Nodup) :
    (vals.map fun v => countEq rs field v).sum +
      (rs.filter fun r => decide (∀ v ∈ vals, field r ≠ JsValue.str v)).length = rs.length := by
  induction rs with
  | nil => simp [countEq]
  | cons r rs ih =>
    have hsplit : (vals.map fun v => countEq (r :: rs) field v).sum =
        (vals.map fun v => if strictEq (field r) v then 1 else 0).sum +
          (vals.map fun v => countEq rs field v).sum := by
      simp only [countEq_cons]
      exact List.sum_map_add
    have hone := indicator_sum (field r) vals hnd
    rw [hsplit, List.filter_cons]
    by_cases hall : ∀ v ∈ vals, field r ≠ JsValue.str v
    · rw [if_pos hall] at hone
      simp only [decide_eq_true hall, ↓reduceIte, List.length_cons]
      omega
    · rw [if_neg hall] at hone
      simp only [decide_eq_false hall, Bool.false_eq_true, ↓reduceIte, List.length_cons]
      omega

theorem matches_le_one (x : JsValue) (vals : List String) (hnd : vals.Nodup) :
    (vals.filter fun v => strictEq x v).length ≤ 1 := by
  have h := indicator_sum x vals hnd
  have hlen : (vals.filter fun v => strictEq x v).length =
      (vals.map fun v => if strictEq x v then 1 else 0).sum := by
    clear h hnd
    induction vals with
    | nil => simp
    | cons w ws ih =>
      by_cases hw : strictEq x w = true
      · simp [hw, ih, Nat.add_comm]
      · simp [hw, ih]
  omega

/-! ## Filter: claims C1 to C4 -/

/-- C1: for every record list and every selection, `filteredData` is exactly the records
that satisfy `(age = "All" or r.AgeGroup = age) and (location = "All" or r.Location =
location) and (education = "All" or r.Education = education)`, kept in their original
order and multiplicity (it is the filter of the list by that predicate, hence a sublist),
with string equality exact. -/
theorem C1_filteredData_spec (rs : List SurveyRecord) (age location education : String) :
    filteredData rs age location education =
        rs.filter (fun r => decide (Passes age location education r)) ∧
      List.Sublist (filteredData rs age location education) rs ∧
      ∀ r, r ∈ filteredData rs age location education ↔
        r ∈ rs ∧ Passes age location education r := by
  refine ⟨filteredData_eq_filter rs age location education, ?_, ?_⟩
  · exact List.filter_sublist rs
  · intro r
    rw [filteredData_eq_filter]
    simp

/-- C2: filter identity, the selection All / All / All returns the record list itself. -/
theorem C2_filter_identity (rs : List SurveyRecord) :
    filteredData rs "All" "All" "All" = rs ∧
      (filteredData rs "All" "All" "All").length = rs.length := by
  have h : filteredData rs "All" "All" "All" = rs := by
    unfold filteredData
    simp
  exact ⟨h, by rw [h]⟩

/-- C3: filter idempotence, filtering a filtered list again with the same selection
changes nothing. -/
theorem C3_filter_idempotent (rs : List SurveyRecord) (age location education : String) :
    filteredData (filteredData rs age location education) age location education =
      filteredData rs age location education := by
  unfold filteredData
  rw [List.filter_filter]
  apply List.filter_congr
  intro r _
  simp

/-- C4: partition property.  For a duplicate-free list `vals` of enum values not containing
"All" and each of the three filterable fields (the other two set to "All"): a record
passes the filter for at most one value of `vals`, and the lengths of the filtered lists
over `vals`, plus the number of records whose field is absent or equal to none of `vals`,
add up to the length of the record list. -/
theorem C4_filter_partition (rs : List SurveyRecord) (vals : List String)
    (hnd : vals.Nodup) (hall : "All" ∉ vals) :
    (∀ r : SurveyRecord,
        (vals.filter fun v => decide (Passes v "All" "All" r)).length ≤ 1 ∧
        (vals.filter fun v => decide (Passes "All" v "All" r)).length ≤ 1 ∧
        (vals.filter fun v => decide (Passes "All" "All" v r)).length ≤ 1) ∧
      (vals.map fun v => (filteredData rs v "All" "All").length).sum +
          (rs.filter fun r => decide (∀ v ∈ vals, r.AgeGroup ≠ JsValue.str v)).length
        = rs.length ∧
      (vals.map fun v => (filteredData rs "All" v "All").length).sum +
          (rs.filter fun r => decide (∀ v ∈ vals, r.Location ≠ JsValue.str v)).length
        = rs.length ∧
      (vals.map fun v => (filteredData rs "All" "All" v).length).sum +
          (rs.filter fun r => decide (∀ v ∈ vals, r.Education ≠ JsValue.str v)).length
        = rs.length := by
  have hne : ∀ v ∈ vals, v ≠ "All" := fun v hv h => hall (h ▸ hv)
  refine ⟨fun r => ⟨?_, ?_, ?_⟩, ?_, ?_, ?_⟩
  · have h := matches_le_one r.AgeGroup vals hnd
    have he : (vals.filter fun v => decide (Passes v "All" "All" r)) =
        vals.filter fun v => strictEq r.AgeGroup v := by
      apply List.filter_congr
      intro v hv
      rw [Bool.eq_iff_iff]
      simp [Passes, hne v hv, strictEq_iff]
    rw [he]; exact h
  · have h := matches_le_one r.Location vals hnd
    have he : (vals.filter fun v => decide (Passes "All" v "All" r)) =
        vals.filter fun v => strictEq r.Location v := by
      apply List.filter_congr
      intro v hv
      rw [Bool.eq_iff_iff]
      simp [Passes, hne v hv, strictEq_iff]
    rw [he]; exact h
  · have h := matches_le_one r.Education vals hnd
    have he : (vals.filter fun v => decide (Passes "All" "All" v r)) =
        vals.filter fun v => strictEq r.Education v := by
      apply List.filter_congr
      intro v hv
      rw [Bool.eq_iff_iff]
      simp [Passes, hne v hv, strictEq_iff]
    rw [he]; exact h
  · have h := countEq_partition rs (·.AgeGroup) vals hnd
    have he : (vals.map fun v => (filteredData rs v "All" "All").length) =
        vals.map fun v => countEq rs (·.AgeGroup) v := by
      apply List.map_congr_left
      intro v hv
      rw [filteredData_age rs v (hne v hv)]; rfl
    rw [he]; exact h
  · have h := countEq_partition rs (·.Location) vals hnd
    have he : (vals.map fun v => (filteredData rs "All" v "All").length) =
        vals.map fun v => countEq rs (·.Location) v := by
      apply List.map_congr_left
      intro v hv
      rw [filteredData_location rs v (hne v hv)]; rfl
    rw [he]; exact h
  · have h := countEq_partition rs (·.Education) vals hnd
    have he : (vals.map fun v => (filteredData rs "All" "All" v).length) =
        vals.map fun v => countEq rs (·.Education) v := by
      apply List.map_congr_left
      intro v hv
      rw [filteredData_education rs v (hne v hv)]; rfl
    rw [he]; exact h

/-! ## Aggregation lemmas -/

theorem countEq_eq_equalCount (fd : List SurveyRecord) (field : SurveyRecord → JsValue)
    (key : String) : countEq fd field key = equalCount fd field key := by
  unfold countEq equalCount
  congr 1
  apply List.filter_congr
  intro r _
  rw [Bool.eq_iff_iff, strictEq_iff]
  simp

theorem occursIn_iff (needle hay : List Char) : occursIn needle hay = true ↔ needle <:+: hay := by
  unfold occursIn
  rw [List.any_eq_true, List.infix_iff_prefix_suffix]
  constructor
  · rintro ⟨t, ht, hp⟩
    exact ⟨t, List.isPrefixOf_iff_prefix.mp hp, (List.mem_tails _ _).mp ht⟩
  · rintro ⟨t, hp, ht⟩
    exact ⟨t, (List.mem_tails _ _).mpr ht, List.isPrefixOf_iff_prefix.mpr hp⟩

theorem andIncludes_ok (v : JsValue) (label : String) (hv : Includable v) (hl : label ≠ "") :
    andIncludes v label = .ok (decide (ContainsLabel v label)) := by
  have hdata : label.data ≠ [] := fun h => hl (String.ext h)
  cases v with
  | str s =>
    unfold andIncludes
    by_cases hs : s = ""
    · subst hs
      have : ¬ ContainsLabel (JsValue.str "") label := by
        intro h
        exact hdata (List.eq_nil_of_infix_nil h)
      simp [truthy, this]
    · have ht : truthy (JsValue.str s) = true := by simp [truthy, hs]
      rw [if_pos ht]
      have hi : includes (JsValue.str s) label = .ok (occursIn label.data s.data) := rfl
      rw [hi]
      congr 1
      rw [Bool.eq_iff_iff, occursIn_iff]
      simp [ContainsLabel]
  | arr xs =>
    unfold andIncludes
    have ht : truthy (JsValue.arr xs) = true := rfl
    rw [if_pos ht]
    have hi : includes (JsValue.arr xs) label = .ok (xs.any fun x => strictEq x label) := rfl
    rw [hi]
    congr 1
    rw [Bool.eq_iff_iff, List.any_eq_true]
    simp only [strictEq_iff, decide_eq_true_eq, ContainsLabel]
    constructor
    · rintro ⟨x, hx, he⟩
      exact he ▸ hx
    · intro h
      exact ⟨_, h, rfl⟩
  | undefined => simp [andIncludes, truthy, ContainsLabel]
  | null => simp [andIncludes, truthy, ContainsLabel]
  | bool b =>
    have hb : b = false := hv
    simp [andIncludes, truthy, ContainsLabel, hb]
  | num n =>
    have hn : truthy (JsValue.num n) = false := hv
    simp [andIncludes, hn, ContainsLabel]
  | obj fs =>
    have hn : truthy (JsValue.obj fs) = false := hv
    simp [truthy] at hn

theorem filterE_ok {α : Type} (p : α → Except JsError Bool) (q : α → Bool) (xs : List α)
    (h : ∀ x ∈ xs, p x = .ok (q x)) : filterE p xs = .ok (xs.filter q) := by
  induction xs with
  | nil => rfl
  | cons x xs ih =>
    have hx := h x (List.mem_cons_self x xs)
    have ih' := ih fun y hy => h y (List.mem_cons_of_mem x hy)
    unfold filterE
    rw [hx, ih']
    cases hq : q x <;> simp [List.filter_cons, hq]

theorem countIncludes_ok (fd : List SurveyRecord) (field : SurveyRecord → JsValue)
    (label : String) (h : ∀ r ∈ fd, Includable (field r)) (hl : label ≠ "") :
    countIncludes fd field label = .ok (containsCount fd field label) := by
  unfold countIncludes containsCount
  rw [filterE_ok _ (fun r => decide (ContainsLabel (field r) label)) fd
    (fun r hr => andIncludes_ok (field r) label (h r hr) hl)]

theorem violenceTypesUnsorted_ok (fd : List SurveyRecord)
    (h : ∀ r ∈ fd, Includable r.ViolenceAgainstWomenTypes) :
    violenceTypesUnsorted fd =
      .ok (labelTable fd (·.ViolenceAgainstWomenTypes) violenceTypeLabels) := by
  have h0 := countIncludes_ok fd (·.ViolenceAgainstWomenTypes) "Physical assault" h (by decide)
  have h1 := countIncludes_ok fd (·.ViolenceAgainstWomenTypes) "Sexual assault or rape" h (by decide)
  have h2 := countIncludes_ok fd (·.ViolenceAgainstWomenTypes) "Verbal abuse or name-calling" h (by decide)
  have h3 := countIncludes_ok fd (·.ViolenceAgainstWomenTypes) "Isolating from friends/family, controlling finances" h (by decide)
  have h4 := countIncludes_ok fd (·.ViolenceAgainstWomenTypes) "Stalking or persistent unwanted attention" h (by decide)
  have h5 := countIncludes_ok fd (·.ViolenceAgainstWomenTypes) "Online harassment or cyberbullying" h (by decide)
  unfold violenceTypesUnsorted
  rw [h0, h1, h2, h3, h4, h5]
  rfl

theorem violenceLocationUnsorted_ok (fd : List SurveyRecord)
    (h : ∀ r ∈ fd, Includable r.PhysicalViolenceLocation) :
    violenceLocationUnsorted fd =
      .ok (labelTable fd (·.PhysicalViolenceLocation) violenceLocationLabels) := by
  have h0 := countIncludes_ok fd (·.PhysicalViolenceLocation) "At home" h (by decide)
  have h1 := countIncludes_ok fd (·.PhysicalViolenceLocation) "In public spaces" h (by decide)
  have h2 := countIncludes_ok fd (·.PhysicalViolenceLocation) "At work" h (by decide)
  have h3 := countIncludes_ok fd (·.PhysicalViolenceLocation) "In educational institutions" h (by decide)
  unfold violenceLocationUnsorted
  rw [h0, h1, h2, h3]
  rfl

theorem reportingBarriersUnsorted_ok (fd : List SurveyRecord)
    (h : ∀ r ∈ fd, Includable r.SexualViolenceBarrier) :
    reportingBarriersUnsorted fd =
      .ok (labelTable fd (·.SexualViolenceBarrier) reportingBarrierLabels) := by
  have h0 := countIncludes_ok fd (·.SexualViolenceBarrier) "Fear of retaliation" h (by decide)
  have h1 := countIncludes_ok fd (·.SexualViolenceBarrier) "Shame or stigma" h (by decide)
  have h2 := countIncludes_ok fd (·.SexualViolenceBarrier) "Lack of trust in authorities" h (by decide)
  have h3 := countIncludes_ok fd (·.SexualViolenceBarrier) "Fear of not being believed" h (by decide)
  have h4 := countIncludes_ok fd (·.SexualViolenceBarrier) "Lack of awareness of rights and resources" h (by decide)
  unfold reportingBarriersUnsorted
  rw [h0, h1, h2, h3, h4]
  rfl

/-- On records shaped as in the data model `processData` returns its six tables: the three
exact-match arrays as written and the three multi-label arrays sorted. -/
theorem processData_ok (fd : List SurveyRecord) (h : WellTyped fd) :
    processData fd = .ok
      { ageDistribution := ageDistribution fd,
        violenceFamiliarity := violenceFamiliarity fd,
        violenceTypes :=
          jsSort byValueDesc (labelTable fd (·.ViolenceAgainstWomenTypes) violenceTypeLabels),
        physicalViolencePrevalence := physicalViolencePrevalence fd,
        violenceLocation :=
          jsSort byValueDesc (labelTable fd (·.PhysicalViolenceLocation) violenceLocationLabels),
        reportingBarriers :=
          jsSort byValueDesc (labelTable fd (·.SexualViolenceBarrier) reportingBarrierLabels) } := by
  unfold processData violenceTypes violenceLocation reportingBarriers
  rw [violenceTypesUnsorted_ok fd fun r hr => (h r hr).1,
    violenceLocationUnsorted_ok fd fun r hr => (h r hr).2.1,
    reportingBarriersUnsorted_ok fd fun r hr => (h r hr).2.2]
  rfl

/-! ## Sorting lemmas -/

instance byValueDesc_total : IsTotal Entry (fun a b => byValueDesc a b ≤ 0) :=
  ⟨fun a b => by unfold byValueDesc; omega⟩

instance byValueDesc_trans : IsTrans Entry (fun a b => byValueDesc a b ≤ 0) :=
  ⟨fun a b c => by unfold byValueDesc; omega⟩

theorem jsSort_perm (t : List Entry) : List.Perm (jsSort byValueDesc t) t :=
  List.perm_insertionSort _ t

theorem jsSort_descending (t : List Entry) : Descending (jsSort byValueDesc t) := by
  have h := List.sorted_insertionSort (fun a b : Entry => byValueDesc a b ≤ 0) t
  unfold Descending jsSort
  refine List.Pairwise.imp ?_ h
  intro a b hab
  unfold byValueDesc at hab
  omega

/-- Stability: entries of equal value keep their order under the descending sort. -/
theorem jsSort_stable (t : List Entry) (v : Nat) :
    (jsSort byValueDesc t).filter (fun e => e.value == v) = t.filter (fun e => e.value == v) := by
  have hpw : (t.filter fun e => e.value == v).Pairwise (fun a b => byValueDesc a b ≤ 0) := by
    rw [List.pairwise_iff_forall_sublist]
    intro a b hab
    have ha : a ∈ t.filter fun e => e.value == v := hab.subset (by simp)
    have hb : b ∈ t.filter fun e => e.value == v := hab.subset (by simp)
    simp only [List.mem_filter, beq_iff_eq] at ha hb
    unfold byValueDesc
    omega
  have hsub : List.Sublist (t.filter fun e => e.value == v) (jsSort byValueDesc t) :=
    List.sublist_insertionSort hpw (List.filter_sublist t)
  have hsub2 : List.Sublist (t.filter fun e => e.value == v)
      ((jsSort byValueDesc t).filter fun e => e.value == v) := by
    have := hsub.filter (fun e => e.value == v)
    rwa [List.filter_filter, show (fun a : Entry => (a.value == v && a.value == v)) =
      (fun e => e.value == v) from funext fun a => Bool.and_self _] at this
  have hlen : ((jsSort byValueDesc t).filter fun e => e.value == v).length =
      (t.filter fun e => e.value == v).length :=
    ((jsSort_perm t).filter _).length_eq
  exact (hsub2.eq_of_length hlen.symm).symm

/-! ## Aggregation tables: claims C5 to C9 -/

/-- C5: aggregation sum invariant.  When every record's AgeGroup is one of the seven band
keys, the seven values of `ageDistribution` sum to the length of the filtered list; likewise
for the four values of `violenceFamiliarity` when every ViolenceFamiliarity is one of the
four levels, and for the five values of `physicalViolencePrevalence` when every
PhysicalViolence is one of the five levels. -/
theorem C5_aggregation_sum (fd : List SurveyRecord) :
    ((∀ r ∈ fd, ∃ p ∈ ageBands, r.AgeGroup = JsValue.str p.2) →
        (ageDistribution fd).length = 7 ∧
        ((ageDistribution fd).map (·.value)).sum = fd.length) ∧
      ((∀ r ∈ fd, ∃ k ∈ familiarityLevels, r.ViolenceFamiliarity = JsValue.str k) →
        (violenceFamiliarity fd).length = 4 ∧
        ((violenceFamiliarity fd).map (·.value)).sum = fd.length) ∧
      ((∀ r ∈ fd, ∃ k ∈ prevalenceLevels, r.PhysicalViolence = JsValue.str k) →
        (physicalViolencePrevalence fd).length = 5 ∧
        ((physicalViolencePrevalence fd).map (·.value)).sum = fd.length) := by
  refine ⟨fun h => ⟨rfl, ?_⟩, fun h => ⟨rfl, ?_⟩, fun h => ⟨rfl, ?_⟩⟩
  · have hp := countEq_partition fd (·.AgeGroup) (ageBands.map Prod.snd) (by decide)
    have hnone : (fd.filter fun r =>
        decide (∀ v ∈ ageBands.map Prod.snd, r.AgeGroup ≠ JsValue.str v)) = [] := by
      rw [List.filter_eq_nil_iff]
      intro r hr
      obtain ⟨q, hq, he⟩ := h r hr
      simp only [decide_eq_true_eq, not_forall]
      exact ⟨q.2, List.mem_map_of_mem _ hq, fun hne => hne he⟩
    rw [hnone] at hp
    simpa [ageDistribution, ageBands] using hp
  · have hp := countEq_partition fd (·.ViolenceFamiliarity) familiarityLevels (by decide)
    have hnone : (fd.filter fun r =>
        decide (∀ v ∈ familiarityLevels, r.ViolenceFamiliarity ≠ JsValue.str v)) = [] := by
      rw [List.filter_eq_nil_iff]
      intro r hr
      obtain ⟨k, hk, he⟩ := h r hr
      simp only [decide_eq_true_eq, not_forall]
      exact ⟨k, hk, fun hne => hne he⟩
    rw [hnone] at hp
    simpa [violenceFamiliarity, familiarityLevels] using hp
  · have hp := countEq_partition fd (·.PhysicalViolence) prevalenceLevels (by decide)
    have hnone : (fd.filter fun r =>
        decide (∀ v ∈ prevalenceLevels, r.PhysicalViolence ≠ JsValue.str v)) = [] := by
      rw [List.filter_eq_nil_iff]
      intro r hr
      obtain ⟨k, hk, he⟩ := h r hr
      simp only [decide_eq_true_eq, not_forall]
      exact ⟨k, hk, fun hne => hne he⟩
    rw [hnone] at hp
    simpa [physicalViolencePrevalence, prevalenceLevels] using hp

/-- C6: exact-match tables.  `ageDistribution` is the list of seven entries named, in this
order, Under 18, 18-24, 25-34, 35-44, 45-54, 55-64, 65 and above (hyphen-minus), each
holding the number of records whose AgeGroup equals the band key (en dash U+2013 in the
keys); `violenceFamiliarity` and `physicalViolencePrevalence` are built the same way over
their four and five levels, in fixed order.  On the four-record example the age values are
1, 2, 1, 0, 0, 0, 0, summing to 4. -/
theorem C6_exact_match_tables (fd : List SurveyRecord) :
    ageDistribution fd =
        [ ⟨"Under 18", equalCount fd (·.AgeGroup) "Under 18"⟩,
          ⟨"18-24", equalCount fd (·.AgeGroup) "18–24"⟩,
          ⟨"25-34", equalCount fd (·.AgeGroup) "25–34"⟩,
          ⟨"35-44", equalCount fd (·.AgeGroup) "35–44"⟩,
          ⟨"45-54", equalCount fd (·.AgeGroup) "45–54"⟩,
          ⟨"55-64", equalCount fd (·.AgeGroup) "55–64"⟩,
          ⟨"65 and above", equalCount fd (·.AgeGroup) "65 and above"⟩ ] ∧
      violenceFamiliarity fd =
        familiarityLevels.map (fun k => ⟨k, equalCount fd (·.ViolenceFamiliarity) k⟩) ∧
      physicalViolencePrevalence fd =
        prevalenceLevels.map (fun k => ⟨k, equalCount fd (·.PhysicalViolence) k⟩) ∧
      ageDistribution ageExample =
        [ ⟨"Under 18", 1⟩, ⟨"18-24", 2⟩, ⟨"25-34", 1⟩, ⟨"35-44", 0⟩, ⟨"45-54", 0⟩,
          ⟨"55-64", 0⟩, ⟨"65 and above", 0⟩ ] ∧
      ((ageDistribution ageExample).map (·.value)).sum = 4 := by
  refine ⟨?_, ?_, ?_, by decide, by decide⟩
  · simp [ageDistribution, countEq_eq_equalCount]
  · simp [violenceFamiliarity, familiarityLevels, countEq_eq_equalCount]
  · simp [physicalViolencePrevalence, prevalenceLevels, countEq_eq_equalCount]

/-- In a table built from a list of pairs with distinct names, the entry carrying a given
name holds the count of that name's label. -/
theorem labelTable_value (fd : List SurveyRecord) (field : SurveyRecord → JsValue)
    (labels : List (String × String)) (hnd : (labels.map (·.1)).Nodup)
    (t : List Entry) (ht : List.Perm t (labelTable fd field labels)) :
    ∀ e ∈ t, ∀ p ∈ labels, e.name = p.1 → e.value = containsCount fd field p.2 := by
  intro e he p hp hname
  have he' : e ∈ labelTable fd field labels := ht.subset he
  obtain ⟨q, hq, rfl⟩ := List.mem_map.mp he'
  have : q = p := List.inj_on_of_nodup_map hnd hq hp hname
  rw [this]

/-- C7: multi-label tables.  On records shaped as in the data model `processData` returns,
and each of `violenceTypes`, `violenceLocation` and `reportingBarriers` consists of one entry
per fixed category, the value attached to a category name being the number of records whose
ViolenceAgainstWomenTypes / PhysicalViolenceLocation / SexualViolenceBarrier field is present
and contains that category's full label string. -/
theorem C7_multi_label_tables (fd : List SurveyRecord) (h : WellTyped fd) :
    ∃ t, processData fd = .ok t ∧
      List.Perm t.violenceTypes
        (labelTable fd (·.ViolenceAgainstWomenTypes) violenceTypeLabels) ∧
      List.Perm t.violenceLocation
        (labelTable fd (·.PhysicalViolenceLocation) violenceLocationLabels) ∧
      List.Perm t.reportingBarriers
        (labelTable fd (·.SexualViolenceBarrier) reportingBarrierLabels) ∧
      (∀ e ∈ t.violenceTypes, ∀ p ∈ violenceTypeLabels, e.name = p.1 →
        e.value = containsCount fd (·.ViolenceAgainstWomenTypes) p.2) ∧
      (∀ e ∈ t.violenceLocation, ∀ p ∈ violenceLocationLabels, e.name = p.1 →
        e.value = containsCount fd (·.PhysicalViolenceLocation) p.2) ∧
      (∀ e ∈ t.reportingBarriers, ∀ p ∈ reportingBarrierLabels, e.name = p.1 →
        e.value = containsCount fd (·.SexualViolenceBarrier) p.2) := by
  refine ⟨_, processData_ok fd h, jsSort_perm _, jsSort_perm _, jsSort_perm _, ?_, ?_, ?_⟩
  · exact labelTable_value fd _ violenceTypeLabels (by decide) _ (jsSort_perm _)
  · exact labelTable_value fd _ violenceLocationLabels (by decide) _ (jsSort_perm _)
  · exact labelTable_value fd _ reportingBarrierLabels (by decide) _ (jsSort_perm _)

/-- C7 at the membership example: the three records are well typed, the theorem applies,
and the table shows Verbal abuse = 1, Physical assault = 1, Stalking = 1 and 0 elsewhere. -/
theorem C7_multi_label_tables_witness :
    WellTyped membershipExample ∧
      (∃ t, processData membershipExample = .ok t ∧
        List.Perm t.violenceTypes
          (labelTable membershipExample (·.ViolenceAgainstWomenTypes) violenceTypeLabels)) ∧
      (∀ t, processData membershipExample = .ok t →
        (⟨"Verbal abuse", 1⟩ ∈ t.violenceTypes ∧ ⟨"Physical assault", 1⟩ ∈ t.violenceTypes ∧
          ⟨"Stalking", 1⟩ ∈ t.violenceTypes ∧ ⟨"Sexual assault", 0⟩ ∈ t.violenceTypes ∧
          ⟨"Isolation", 0⟩ ∈ t.violenceTypes ∧ ⟨"Online harassment", 0⟩ ∈ t.violenceTypes)) := by
  have hw : WellTyped membershipExample := by decide
  obtain ⟨t, ht, hp, _⟩ := C7_multi_label_tables membershipExample hw
  refine ⟨hw, ⟨t, ht, hp⟩, ?_⟩
  intro t' ht'
  have hval : processData membershipExample = .ok
      { ageDistribution := ageDistribution membershipExample,
        violenceFamiliarity := violenceFamiliarity membershipExample,
        violenceTypes := [⟨"Physical assault", 1⟩, ⟨"Verbal abuse", 1⟩, ⟨"Stalking", 1⟩,
          ⟨"Sexual assault", 0⟩, ⟨"Isolation", 0⟩, ⟨"Online harassment", 0⟩],
        physicalViolencePrevalence := physicalViolencePrevalence membershipExample,
        violenceLocation := [⟨"At home", 0⟩, ⟨"In public spaces", 0⟩, ⟨"At work", 0⟩,
          ⟨"In educational institutions", 0⟩],
        reportingBarriers := [⟨"Fear of retaliation", 0⟩, ⟨"Shame or stigma", 0⟩,
          ⟨"Lack of trust in authorities", 0⟩, ⟨"Fear of not being believed", 0⟩,
          ⟨"Lack of awareness of rights", 0⟩] } := rfl
  rw [hval] at ht'
  cases ht'
  decide

/-- C8: sorted descending.  On records shaped as in the data model, each of
`violenceTypes`, `violenceLocation` and `reportingBarriers` holds exactly its fixed category
names, each once (6 / 4 / 5 entries), and its values are non-increasing from first entry to
last. -/
theorem C8_sorted_descending (fd : List SurveyRecord) (h : WellTyped fd) :
    ∃ t, processData fd = .ok t ∧
      (List.Perm (t.violenceTypes.map (·.name))
          ["Physical assault", "Sexual assault", "Verbal abuse", "Isolation", "Stalking",
            "Online harassment"] ∧
        t.violenceTypes.length = 6 ∧ Descending t.violenceTypes) ∧
      (List.Perm (t.violenceLocation.map (·.name))
          ["At home", "In public spaces", "At work", "In educational institutions"] ∧
        t.violenceLocation.length = 4 ∧ Descending t.violenceLocation) ∧
      (List.Perm (t.reportingBarriers.map (·.name))
          ["Fear of retaliation", "Shame or stigma", "Lack of trust in authorities",
            "Fear of not being believed", "Lack of awareness of rights"] ∧
        t.reportingBarriers.length = 5 ∧ Descending t.reportingBarriers) := by
  refine ⟨_, processData_ok fd h, ⟨?_, ?_, jsSort_descending _⟩, ⟨?_, ?_, jsSort_descending _⟩,
    ⟨?_, ?_, jsSort_descending _⟩⟩
  · exact (jsSort_perm _).map _
  · exact (jsSort_perm _).length_eq
  · exact (jsSort_perm _).map _
  · exact (jsSort_perm _).length_eq
  · exact (jsSort_perm _).map _
  · exact (jsSort_perm _).length_eq

/-- C8 at the membership example. -/
theorem C8_sorted_descending_witness :
    WellTyped membershipExample ∧
      ∃ t, processData membershipExample = .ok t ∧
        t.violenceTypes.length = 6 ∧ Descending t.violenceTypes ∧
        t.violenceLocation.length = 4 ∧ Descending t.violenceLocation ∧
        t.reportingBarriers.length = 5 ∧ Descending t.reportingBarriers := by
  have hw : WellTyped membershipExample := by decide
  obtain ⟨t, ht, h1, h2, h3⟩ := C8_sorted_descending membershipExample hw
  exact ⟨hw, t, ht, h1.2.1, h1.2.2, h2.2.1, h2.2.2, h3.2.1, h3.2.2⟩

/-- The names of the entries of one value, read off a sorted table, form a subsequence of
the fixed name list. -/
theorem jsSort_names_sublist (fd : List SurveyRecord) (field : SurveyRecord → JsValue)
    (labels : List (String × String)) (v : Nat) :
    List.Sublist
      (((jsSort byValueDesc (labelTable fd field labels)).filter
        fun e => e.value == v).map (·.name))
      (labels.map (·.1)) := by
  rw [jsSort_stable]
  have h1 : List.Sublist ((labelTable fd field labels).filter fun e => e.value == v)
      (labelTable fd field labels) := List.filter_sublist _
  have h2 := h1.map (·.name)
  have h3 : (labelTable fd field labels).map (·.name) = labels.map (·.1) := by
    simp [labelTable]
  rwa [h3] at h2

/-- C9: stable tie-break.  On records shaped as in the data model, in each of
`violenceTypes`, `violenceLocation` and `reportingBarriers` the entries sharing a value `v`
are, in order, the entries of value `v` of the table in fixed category order; so their names
form a subsequence of the fixed category list. -/
theorem C9_stable_tie_break (fd : List SurveyRecord) (h : WellTyped fd) :
    ∃ t, processData fd = .ok t ∧ ∀ v : Nat,
      (t.violenceTypes.filter (fun e => e.value == v) =
          (labelTable fd (·.ViolenceAgainstWomenTypes) violenceTypeLabels).filter
            (fun e => e.value == v) ∧
        List.Sublist ((t.violenceTypes.filter fun e => e.value == v).map (·.name))
          ["Physical assault", "Sexual assault", "Verbal abuse", "Isolation", "Stalking",
            "Online harassment"]) ∧
      (t.violenceLocation.filter (fun e => e.value == v) =
          (labelTable fd (·.PhysicalViolenceLocation) violenceLocationLabels).filter
            (fun e => e.value == v) ∧
        List.Sublist ((t.violenceLocation.filter fun e => e.value == v).map (·.name))
          ["At home", "In public spaces", "At work", "In educational institutions"]) ∧
      (t.reportingBarriers.filter (fun e => e.value == v) =
          (labelTable fd (·.SexualViolenceBarrier) reportingBarrierLabels).filter
            (fun e => e.value == v) ∧
        List.Sublist ((t.reportingBarriers.filter fun e => e.value == v).map (·.name))
          ["Fear of retaliation", "Shame or stigma", "Lack of trust in authorities",
            "Fear of not being believed", "Lack of awareness of rights"]) := by
  refine ⟨_, processData_ok fd h, fun v => ⟨⟨jsSort_stable _ v, ?_⟩, ⟨jsSort_stable _ v, ?_⟩,
    ⟨jsSort_stable _ v, ?_⟩⟩⟩
  · exact jsSort_names_sublist fd _ violenceTypeLabels v
  · exact jsSort_names_sublist fd _ violenceLocationLabels v
  · exact jsSort_names_sublist fd _ reportingBarrierLabels v

/-- C9 at the membership example: the theorem applies, and the sorted table is Physical
assault (1), Verbal abuse (1), Stalking (1), Sexual assault (0), Isolation (0), Online
harassment (0). -/
theorem C9_stable_tie_break_witness :
    WellTyped membershipExample ∧
      (∃ t, processData membershipExample = .ok t ∧
        List.Sublist ((t.violenceTypes.filter fun e => e.value == 1).map (·.name))
          ["Physical assault", "Sexual assault", "Verbal abuse", "Isolation", "Stalking",
            "Online harassment"]) ∧
      violenceTypes membershipExample =
        .ok [⟨"Physical assault", 1⟩, ⟨"Verbal abuse", 1⟩, ⟨"Stalking", 1⟩,
          ⟨"Sexual assault", 0⟩, ⟨"Isolation", 0⟩, ⟨"Online harassment", 0⟩] := by
  have hw : WellTyped membershipExample := by decide
  obtain ⟨t, ht, hv⟩ := C9_stable_tie_break membershipExample hw
  exact ⟨hw, ⟨t, ht, (hv 1).1.2⟩, rfl⟩

/-- C4 at the seven age-band keys and the three fully answered records. -/
theorem C4_filter_partition_witness :
    (ageBands.map Prod.snd).Nodup ∧ "All" ∉ ageBands.map Prod.snd ∧
      ((ageBands.map Prod.snd).map fun v =>
          (filteredData answeredExample v "All" "All").length).sum +
        (answeredExample.filter fun r =>
          decide (∀ v ∈ ageBands.map Prod.snd, r.AgeGroup ≠ JsValue.str v)).length
        = answeredExample.length :=
  ⟨by decide, by decide,
    (C4_filter_partition answeredExample (ageBands.map Prod.snd) (by decide) (by decide)).2.1⟩

/-- C5 at the three fully answered records. -/
theorem C5_aggregation_sum_witness :
    (∀ r ∈ answeredExample, ∃ p ∈ ageBands, r.AgeGroup = JsValue.str p.2) ∧
      ((ageDistribution answeredExample).map (·.value)).sum = answeredExample.length ∧
      (∀ r ∈ answeredExample, ∃ k ∈ familiarityLevels, r.ViolenceFamiliarity = JsValue.str k) ∧
      ((violenceFamiliarity answeredExample).map (·.value)).sum = answeredExample.length ∧
      (∀ r ∈ answeredExample, ∃ k ∈ prevalenceLevels, r.PhysicalViolence = JsValue.str k) ∧
      ((physicalViolencePrevalence answeredExample).map (·.value)).sum =
        answeredExample.length :=
  ⟨by decide, ((C5_aggregation_sum answeredExample).1 (by decide)).2,
    by decide, ((C5_aggregation_sum answeredExample).2.1 (by decide)).2,
    by decide, ((C5_aggregation_sum answeredExample).2.2 (by decide)).2⟩

/-! ## Number lemmas -/

theorem pow2Num_pos (e : Int) : 0 < pow2Num e := by
  unfold pow2Num; positivity

theorem pow2Den_pos (e : Int) : 0 < pow2Den e := by
  unfold pow2Den; positivity

theorem pow2_ratio (e : Int) : ((pow2Num e : ℕ) : ℚ) / ((pow2Den e : ℕ) : ℚ) = (2 : ℚ) ^ e := by
  unfold pow2Num pow2Den
  rcases le_total 0 e with h | h
  · obtain ⟨n, rfl⟩ := Int.eq_ofNat_of_zero_le h
    have h1 : (-(n : ℤ)).toNat = 0 := Int.toNat_eq_zero.mpr (by omega)
    rw [h1, Int.toNat_natCast]
    simp
  · obtain ⟨n, rfl⟩ : ∃ n : ℕ, e = -(n : ℤ) := ⟨(-e).toNat, by omega⟩
    have h1 : (-(n : ℤ)).toNat = 0 := Int.toNat_eq_zero.mpr (by omega)
    rw [h1, neg_neg, Int.toNat_natCast]
    simp

theorem divRoundEven_bounds (a b : Nat) (hb : 0 < b) :
    2 * a ≤ 2 * (b * divRoundEven a b) + b ∧ 2 * (b * divRoundEven a b) ≤ 2 * a + b := by
  have hdm := Nat.div_add_mod a b
  have hr := Nat.mod_lt a hb
  unfold divRoundEven
  simp only
  split_ifs with h1 h2 h3
  · constructor <;> omega
  · rw [Nat.mul_add, Nat.mul_one]; constructor <;> omega
  · constructor <;> omega
  · rw [Nat.mul_add, Nat.mul_one]; constructor <;> omega

theorem bitLogAux_bounds : ∀ (fuel n : Nat), n ≤ fuel → 0 < n →
    2 ^ bitLogAux fuel n ≤ n ∧ n < 2 ^ (bitLogAux fuel n + 1)
  | 0, n, h, hn => by omega
  | fuel + 1, n, h, hn => by
    unfold bitLogAux
    by_cases h2 : n < 2
    · rw [if_pos h2]
      constructor <;> simp <;> omega
    · rw [if_neg h2]
      have ih := bitLogAux_bounds fuel (n / 2) (by omega) (by omega)
      rw [pow_succ, pow_succ]
      constructor <;> omega

theorem bitLog_bounds (n : Nat) (hn : 0 < n) : 2 ^ bitLog n ≤ n ∧ n < 2 ^ (bitLog n + 1) :=
  bitLogAux_bounds n n le_rfl hn

theorem floorLog2_le (a b : Nat) (ha : 0 < a) (hb : 0 < b) :
    (2 : ℚ) ^ floorLog2 a b ≤ (a : ℚ) / b := by
  have hbq : (0 : ℚ) < b := by exact_mod_cast hb
  unfold floorLog2
  simp only
  split_ifs with hc
  · rw [← pow2_ratio]
    have hD : (0 : ℚ) < (pow2Den ((bitLog a : ℤ) - (bitLog b : ℤ)) : ℕ) := by
      exact_mod_cast pow2Den_pos _
    rw [div_le_div_iff₀ hD hbq]
    have : ((b * pow2Num ((bitLog a : ℤ) - (bitLog b : ℤ)) : ℕ) : ℚ) ≤
        ((a * pow2Den ((bitLog a : ℤ) - (bitLog b : ℤ)) : ℕ) : ℚ) := by exact_mod_cast hc
    push_cast at this
    linarith
  · have h1 := (bitLog_bounds a ha).1
    have h2 := (bitLog_bounds b hb).2
    have e1 : ((bitLog a : ℤ) - (bitLog b : ℤ) - 1) = (bitLog a : ℤ) - ((bitLog b + 1 : ℕ) : ℤ) := by
      push_cast; ring
    rw [e1, zpow_sub₀ (two_ne_zero), zpow_natCast, zpow_natCast]
    have h1q : ((2 : ℚ) ^ bitLog a) ≤ a := by exact_mod_cast h1
    have h2q : (b : ℚ) ≤ (2 : ℚ) ^ (bitLog b + 1) := by exact_mod_cast h2.le
    exact div_le_div₀ (by positivity) h1q hbq h2q

theorem floorLog2_lt (a b : Nat) (ha : 0 < a) (hb : 0 < b) :
    (a : ℚ) / b < (2 : ℚ) ^ (floorLog2 a b + 1) := by
  have hbq : (0 : ℚ) < b := by exact_mod_cast hb
  unfold floorLog2
  simp only
  split_ifs with hc
  · have h1 := (bitLog_bounds a ha).2
    have h2 := (bitLog_bounds b hb).1
    have e1 : ((bitLog a : ℤ) - (bitLog b : ℤ) + 1) = ((bitLog a + 1 : ℕ) : ℤ) - (bitLog b : ℤ) := by
      push_cast; ring
    rw [e1, zpow_sub₀ (two_ne_zero), zpow_natCast, zpow_natCast]
    have h1q : (a : ℚ) < (2 : ℚ) ^ (bitLog a + 1) := by exact_mod_cast h1
    have h2q : ((2 : ℚ) ^ bitLog b) ≤ b := by exact_mod_cast h2
    have hp : (0 : ℚ) < 2 ^ bitLog b := by positivity
    calc (a : ℚ) / b ≤ a / 2 ^ bitLog b :=
          div_le_div_of_nonneg_left (by positivity) hp h2q
      _ < 2 ^ (bitLog a + 1) / 2 ^ bitLog b := div_lt_div_of_pos_right h1q hp
  · rw [sub_add_cancel, ← pow2_ratio]
    have hD : (0 : ℚ) < (pow2Den ((bitLog a : ℤ) - (bitLog b : ℤ)) : ℕ) := by
      exact_mod_cast pow2Den_pos _
    rw [div_lt_div_iff₀ hbq hD]
    have : ((a * pow2Den ((bitLog a : ℤ) - (bitLog b : ℤ)) : ℕ) : ℚ) <
        ((b * pow2Num ((bitLog a : ℤ) - (bitLog b : ℤ)) : ℕ) : ℚ) := by
      exact_mod_cast Nat.lt_of_not_le hc
    push_cast at this
    linarith

/-- Rounding a positive rational in the normal range below 128 to binary64 gives a finite
number within relative error `2 ^ (-53)`. -/
theorem roundBinary64_spec (a b : Nat) (ha : 0 < a) (hb : 0 < b)
    (hlo : (2 : ℚ) ^ (-1022 : ℤ) ≤ (a : ℚ) / b) (hhi : (a : ℚ) / b ≤ 2 ^ (7 : ℤ)) :
    ∃ m e, roundBinary64 a b = .fin m e ∧
      (a : ℚ) / b - (a : ℚ) / b / 2 ^ 53 ≤ (m : ℚ) * 2 ^ e ∧
      (m : ℚ) * 2 ^ e ≤ (a : ℚ) / b + (a : ℚ) / b / 2 ^ 53 := by
  have hbq : (0 : ℚ) < b := by exact_mod_cast hb
  have hE := floorLog2_le a b ha hb
  have hE7 : floorLog2 a b ≤ 7 := (zpow_le_zpow_iff_right₀ (by norm_num : (1 : ℚ) < 2)).mp (hE.trans hhi)
  set e : ℤ := max (floorLog2 a b - 52) (-1074) with he
  set m := divRoundEven (a * pow2Den e) (b * pow2Num e) with hm
  have het : (2 : ℚ) ^ e * 2 ^ (52 : ℤ) ≤ (a : ℚ) / b := by
    rw [← zpow_add₀ (two_ne_zero)]
    rcases le_total (floorLog2 a b - 52) (-1074) with h | h
    · rw [he, max_eq_right h]
      exact hlo
    · rw [he, max_eq_left h]
      have : floorLog2 a b - 52 + 52 = floorLog2 a b := by ring
      rw [this]; exact hE
  have he971 : e < 971 := by
    rw [he]; exact max_lt (by omega) (by norm_num)
  have hround : roundBinary64 a b = .fin m e := by
    unfold roundBinary64
    simp only
    rw [← he, ← hm]
    rw [if_neg]
    push_neg
    exact ⟨by omega, fun h => by omega⟩
  have hN : (0 : ℚ) < (pow2Num e : ℕ) := by exact_mod_cast pow2Num_pos e
  have hD : (0 : ℚ) < (pow2Den e : ℕ) := by exact_mod_cast pow2Den_pos e
  have ht : ((pow2Num e : ℕ) : ℚ) = 2 ^ e * (pow2Den e : ℕ) := by
    rw [← pow2_ratio]; field_simp
  have hb' := divRoundEven_bounds (a * pow2Den e) (b * pow2Num e)
    (Nat.mul_pos hb (pow2Num_pos e))
  rw [← hm] at hb'
  obtain ⟨hb1, hb2⟩ := hb'
  have hb1q : (2 : ℚ) * (a * (pow2Den e : ℕ)) ≤ 2 * (b * (pow2Num e : ℕ) * m) + b * (pow2Num e : ℕ) := by
    exact_mod_cast hb1
  have hb2q : (2 : ℚ) * (b * (pow2Num e : ℕ) * m) ≤ 2 * (a * (pow2Den e : ℕ)) + b * (pow2Num e : ℕ) := by
    exact_mod_cast hb2
  rw [ht] at hb1q hb2q
  have haq : (a : ℚ) = (a : ℚ) / b * b := by field_simp
  set q : ℚ := (a : ℚ) / b with hq
  set t : ℚ := (2 : ℚ) ^ e with htdef
  set D : ℚ := ((pow2Den e : ℕ) : ℚ) with hDdef
  have htpos : 0 < t := by positivity
  have hbD : 0 < (b : ℚ) * D := mul_pos hbq hD
  rw [haq] at hb1q hb2q
  have k1 : (b * D) * (2 * q) ≤ (b * D) * (2 * (t * m) + t) := by nlinarith
  have k2 : (b * D) * (2 * (t * m)) ≤ (b * D) * (2 * q + t) := by nlinarith
  have k1' := le_of_mul_le_mul_left k1 hbD
  have k2' := le_of_mul_le_mul_left k2 hbD
  have h52 : ((2 : ℚ) ^ (52 : ℤ)) = 2 ^ 52 := by norm_num
  rw [h52] at het
  have hthalf : t / 2 ≤ q / 2 ^ 53 := by
    rw [div_le_div_iff₀ (by norm_num) (by positivity)]
    nlinarith
  have hmt : (m : ℚ) * t = t * m := mul_comm _ _
  refine ⟨m, e, hround, ?_, ?_⟩
  · rw [hmt]; linarith
  · rw [hmt]; linarith

/-- The percentage `(k / n) * 100` of the code, as the model's binary64 number. -/
theorem percentage_value (k n : Nat) (hk : k ≤ n) (hn : 0 < n) (hn32 : n < 2 ^ 32) :
    ∃ m e, jsMul (jsDiv (.ofNat k) (.ofNat n)) (.ofNat 100) = .fin m e ∧
      100 * ((k : ℚ) / n) - 300 / 2 ^ 53 ≤ (m : ℚ) * 2 ^ e ∧
      (m : ℚ) * 2 ^ e ≤ 100 * ((k : ℚ) / n) + 300 / 2 ^ 53 := by
  have hnq : (0 : ℚ) < n := by exact_mod_cast hn
  rcases Nat.eq_zero_or_pos k with hk0 | hkpos
  · subst hk0
    refine ⟨0, 0, ?_, ?_, ?_⟩
    · have hn0 : n ≠ 0 := by omega
      simp [jsDiv, jsMul, JsNumber.ofNat, hn0]
    · norm_num
    · norm_num
  · have hkq : (0 : ℚ) < k := by exact_mod_cast hkpos
    have hn0 : n ≠ 0 := by omega
    have hk0 : k ≠ 0 := by omega
    have hq1 : (k : ℚ) / n ≤ 1 := by
      rw [div_le_one hnq]; exact_mod_cast hk
    have hqlo : (2 : ℚ) ^ (-32 : ℤ) ≤ (k : ℚ) / n := by
      have h1 : (1 : ℚ) ≤ k := by exact_mod_cast hkpos
      have h2 : (n : ℚ) ≤ 2 ^ 32 := by exact_mod_cast hn32.le
      have h3 : (2 : ℚ) ^ (-32 : ℤ) = 1 / 2 ^ 32 := by norm_num
      rw [h3]
      exact div_le_div₀ (by positivity) h1 hnq h2
    have hqpos : (0 : ℚ) < (k : ℚ) / n := by positivity
    have hdiv : jsDiv (.ofNat k) (.ofNat n) = roundBinary64 k n := by
      have hN : pow2Num 0 = 1 := rfl
      have hD : pow2Den 0 = 1 := rfl
      simp [jsDiv, JsNumber.ofNat, hn0, hk0, hN, hD]
    obtain ⟨m1, e1, hr1, hlo1, hhi1⟩ := roundBinary64_spec k n hkpos hn
      (le_trans (by norm_num) hqlo) (le_trans hq1 (by norm_num))
    set q : ℚ := (k : ℚ) / n with hq
    set x1 : ℚ := (m1 : ℚ) * 2 ^ e1 with hx1
    have hx1pos : 0 < x1 := by
      have : q / 2 ^ 53 < q := by
        rw [div_lt_iff₀ (by positivity)]
        nlinarith
      linarith
    have hm1 : m1 ≠ 0 := by
      rintro rfl
      simp [hx1] at hx1pos
    have hm1pos : 0 < m1 := Nat.pos_of_ne_zero hm1
    have hmul : jsMul (jsDiv (.ofNat k) (.ofNat n)) (.ofNat 100) =
        roundBinary64 (m1 * 100 * pow2Num e1) (pow2Den e1) := by
      rw [hdiv, hr1]
      simp [jsMul, JsNumber.ofNat, hm1]
    have hval : (((m1 * 100 * pow2Num e1 : ℕ) : ℚ)) / ((pow2Den e1 : ℕ) : ℚ) = 100 * x1 := by
      have hD : (0 : ℚ) < (pow2Den e1 : ℕ) := by exact_mod_cast pow2Den_pos e1
      rw [hx1, ← pow2_ratio]
      push_cast
      field_simp
      ring
    have h2lo : (2 : ℚ) ^ (-1022 : ℤ) ≤ 100 * x1 := by
      have h1 : (2 : ℚ) ^ (-1022 : ℤ) ≤ 2 ^ (-33 : ℤ) :=
        (zpow_le_zpow_iff_right₀ (by norm_num : (1 : ℚ) < 2)).mpr (by norm_num)
      have h2 : (2 : ℚ) ^ (-33 : ℤ) = 1 / 2 ^ 33 := by norm_num
      have h3 : q / 2 ^ 53 ≤ q / 2 := by
        apply div_le_div_of_nonneg_left hqpos.le (by norm_num) (by norm_num)
      have h4 : (1 : ℚ) / 2 ^ 32 ≤ q := by
        have : (2 : ℚ) ^ (-32 : ℤ) = 1 / 2 ^ 32 := by norm_num
        rw [← this]; exact hqlo
      have hA : (1 : ℚ) / 2 ^ 33 ≤ x1 := by
        have h5 : (1 : ℚ) / 2 ^ 33 = 1 / 2 ^ 32 / 2 := by norm_num
        rw [h5]; linarith
      have hB : x1 ≤ 100 * x1 := by linarith
      rw [h2] at h1
      exact h1.trans (hA.trans hB)
    have h2hi : 100 * x1 ≤ (2 : ℚ) ^ (7 : ℤ) := by
      have h3 : q / 2 ^ 53 ≤ 1 / 2 ^ 53 := by
        apply div_le_div_of_nonneg_right hq1 (by positivity)
      have : (2 : ℚ) ^ (7 : ℤ) = 128 := by norm_num
      rw [this]
      have h4 : (1 : ℚ) / 2 ^ 53 ≤ 1 / 100 := by norm_num
      linarith
    obtain ⟨m2, e2, hr2, hlo2, hhi2⟩ := roundBinary64_spec (m1 * 100 * pow2Num e1) (pow2Den e1)
      (Nat.mul_pos (Nat.mul_pos hm1pos (by norm_num)) (pow2Num_pos e1)) (pow2Den_pos e1)
      (by rw [hval]; exact h2lo) (by rw [hval]; exact h2hi)
    rw [hval] at hlo2 hhi2
    refine ⟨m2, e2, by rw [hmul, hr2], ?_, ?_⟩
    · have e1' : 100 * x1 / 2 ^ 53 = x1 * (100 / 2 ^ 53) := by ring
      have e2' : q / 2 ^ 53 = q * (1 / 2 ^ 53) := by ring
      rw [e1'] at hlo2
      rw [e2'] at hlo1 hhi1
      have hc : (0 : ℚ) < 100 - 100 / 2 ^ 53 := by norm_num
      have : (100 - 100 / 2 ^ 53) * (q - q * (1 / 2 ^ 53)) ≤ (100 - 100 / 2 ^ 53) * x1 :=
        mul_le_mul_of_nonneg_left hlo1 hc.le
      have hq' : q * (200 / 2 ^ 53) ≤ 1 * (200 / 2 ^ 53) :=
        mul_le_mul_of_nonneg_right hq1 (by norm_num)
      have hqq : 0 ≤ q * (100 / (2 ^ 53 * 2 ^ 53)) := by positivity
      nlinarith
    · have e1' : 100 * x1 / 2 ^ 53 = x1 * (100 / 2 ^ 53) := by ring
      have e2' : q / 2 ^ 53 = q * (1 / 2 ^ 53) := by ring
      rw [e1'] at hhi2
      rw [e2'] at hlo1 hhi1
      have hc : (0 : ℚ) < 100 + 100 / 2 ^ 53 := by norm_num
      have : (100 + 100 / 2 ^ 53) * x1 ≤ (100 + 100 / 2 ^ 53) * (q + q * (1 / 2 ^ 53)) :=
        mul_le_mul_of_nonneg_left hhi1 hc.le
      have hq' : q * (200 / 2 ^ 53 + 100 / (2 ^ 53 * 2 ^ 53)) ≤
          1 * (200 / 2 ^ 53 + 100 / (2 ^ 53 * 2 ^ 53)) :=
        mul_le_mul_of_nonneg_right hq1 (by norm_num)
      have hsmall : (100 : ℚ) / (2 ^ 53 * 2 ^ 53) ≤ 100 / 2 ^ 53 := by norm_num
      nlinarith

theorem toFixed1_fin (m : Nat) (e : Int) :
    toFixed1 (.fin m e) =
      toString (nearestTenths m e / 10) ++ "." ++ toString (nearestTenths m e % 10) := rfl

theorem nearestTenths_bounds (m : Nat) (e : Int) :
    (nearestTenths m e : ℚ) ≤ 10 * ((m : ℚ) * 2 ^ e) + 1 / 2 ∧
      10 * ((m : ℚ) * 2 ^ e) + 1 / 2 < (nearestTenths m e : ℚ) + 1 := by
  have hDn := pow2Den_pos e
  have hD : (0 : ℚ) < (pow2Den e : ℕ) := by exact_mod_cast hDn
  have ht : ((pow2Num e : ℕ) : ℚ) = 2 ^ e * (pow2Den e : ℕ) := by
    rw [← pow2_ratio]; field_simp
  have h1 : 2 * pow2Den e * nearestTenths m e ≤ 20 * (m * pow2Num e) + pow2Den e :=
    Nat.mul_div_le _ _
  have h2 : 20 * (m * pow2Num e) + pow2Den e < 2 * pow2Den e * (nearestTenths m e + 1) :=
    Nat.lt_mul_div_succ _ (by omega)
  have h1q : (2 : ℚ) * (pow2Den e : ℕ) * (nearestTenths m e : ℕ) ≤
      20 * (m * (pow2Num e : ℕ)) + (pow2Den e : ℕ) := by exact_mod_cast h1
  have h2q : (20 : ℚ) * (m * (pow2Num e : ℕ)) + (pow2Den e : ℕ) <
      2 * (pow2Den e : ℕ) * ((nearestTenths m e : ℕ) + 1) := by exact_mod_cast h2
  rw [ht] at h1q h2q
  set D : ℚ := ((pow2Den e : ℕ) : ℚ)
  set t : ℚ := (2 : ℚ) ^ e
  set N : ℚ := ((nearestTenths m e : ℕ) : ℚ)
  constructor
  · have : D * (2 * N) ≤ D * (2 * (10 * (m * t) + 1 / 2)) := by nlinarith
    have := le_of_mul_le_mul_left this hD
    linarith
  · have : D * (2 * (10 * (m * t) + 1 / 2)) < D * (2 * (N + 1)) := by nlinarith
    have := lt_of_mul_lt_mul_left this hD.le
    linarith

/-- The percentage string of the code for `k` matching records out of `n`: one decimal
digit, and a value within one twentieth of `100 * k / n`. -/
theorem percentage_string (k n : Nat) (hk : k ≤ n) (hn : 0 < n) (hn32 : n < 2 ^ 32) :
    ∃ N : Nat,
      toFixed1 (jsMul (jsDiv (.ofNat k) (.ofNat n)) (.ofNat 100)) =
        toString (N / 10) ++ "." ++ toString (N % 10) ∧
      |(N : ℚ) / 10 - 100 * (k : ℚ) / n| ≤ 1 / 20 := by
  obtain ⟨m, e, hv, hlo, hhi⟩ := percentage_value k n hk hn hn32
  obtain ⟨hN1, hN2⟩ := nearestTenths_bounds m e
  refine ⟨nearestTenths m e, by rw [hv, toFixed1_fin], ?_⟩
  have hnq : (0 : ℚ) < n := by exact_mod_cast hn
  have hn32q : (n : ℚ) < 2 ^ 32 := by exact_mod_cast hn32
  set N : ℕ := nearestTenths m e
  set x : ℚ := (m : ℚ) * 2 ^ e
  have hkq : (k : ℚ) = (k : ℚ) / n * n := by field_simp
  -- the integer 2 n N - 2000 k lies strictly between -(n + 1) and n + 1
  have hup : ((2 * (n : ℤ) * N - 2000 * k : ℤ) : ℚ) < ((n : ℤ) + 1 : ℤ) := by
    push_cast
    have h1 : (N : ℚ) - 1000 * ((k : ℚ) / n) ≤ 1 / 2 + 3000 / 2 ^ 53 := by linarith
    have h2 := mul_le_mul_of_nonneg_left h1 hnq.le
    have h3 : (n : ℚ) * (3000 / 2 ^ 53) < 2 ^ 32 * (3000 / 2 ^ 53) :=
      mul_lt_mul_of_pos_right hn32q (by norm_num)
    have h4 : (2 : ℚ) ^ 32 * (3000 / 2 ^ 53) ≤ 1 / 2 := by norm_num
    have h5 : (n : ℚ) * ((N : ℚ) - 1000 * ((k : ℚ) / n)) = n * N - 1000 * k := by
      field_simp
      ring
    rw [h5] at h2
    linarith
  have hdn : (((-(n : ℤ) - 1 : ℤ)) : ℚ) < ((2 * (n : ℤ) * N - 2000 * k : ℤ) : ℚ) := by
    push_cast
    have h1 : -(1 / 2 + 3000 / 2 ^ 53) < (N : ℚ) - 1000 * ((k : ℚ) / n) := by linarith
    have h2 := mul_lt_mul_of_pos_left h1 hnq
    have h3 : (n : ℚ) * (3000 / 2 ^ 53) < 2 ^ 32 * (3000 / 2 ^ 53) :=
      mul_lt_mul_of_pos_right hn32q (by norm_num)
    have h4 : (2 : ℚ) ^ 32 * (3000 / 2 ^ 53) ≤ 1 / 2 := by norm_num
    have h5 : (n : ℚ) * ((N : ℚ) - 1000 * ((k : ℚ) / n)) = n * N - 1000 * k := by
      field_simp
      ring
    rw [h5] at h2
    linarith
  have hupZ : (2 * (n : ℤ) * N - 2000 * k : ℤ) < (n : ℤ) + 1 := by exact_mod_cast hup
  have hdnZ : (-(n : ℤ) - 1 : ℤ) < (2 * (n : ℤ) * N - 2000 * k : ℤ) := by exact_mod_cast hdn
  have hZ1 : (2 * (n : ℤ) * N - 2000 * k : ℤ) ≤ n := by omega
  have hZ2 : -(n : ℤ) ≤ (2 * (n : ℤ) * N - 2000 * k : ℤ) := by omega
  have hZ1q : (2 : ℚ) * n * N - 2000 * k ≤ n := by exact_mod_cast hZ1
  have hZ2q : -(n : ℚ) ≤ 2 * n * N - 2000 * k := by exact_mod_cast hZ2
  have hrew : (N : ℚ) / 10 - 100 * (k : ℚ) / n = (2 * n * N - 2000 * k) / (20 * n) := by
    field_simp
    ring
  rw [hrew, abs_le]
  constructor
  · rw [le_div_iff₀ (by positivity)]
    linarith
  · rw [div_le_iff₀ (by positivity)]
    linarith

/-! ## Headline: claim C10 -/

/-- C10: headline.  For a non-empty filtered list of `n` records (an array, so `n < 2 ^ 32`)
of which `k` have ViolenceAgainstWomen equal to "Yes", `mainInference` is the percentage
string followed by "% of women surveyed have experienced some form of violence.", the
percentage being printed with exactly one decimal digit and lying within one twentieth of
`100 * k / n`, that is, it is `100 * k / n` rounded to one decimal place.  (When
`100 * k / n` is exactly halfway between two tenths, binary64 arithmetic decides which of
the two nearest tenths is printed.) -/
theorem C10_headline (fd : List SurveyRecord) (hne : fd ≠ []) (hlen : fd.length < 2 ^ 32) :
    ∃ N : Nat,
      mainInference fd =
        toString (N / 10) ++ "." ++ toString (N % 10) ++
          "% of women surveyed have experienced some form of violence." ∧
      |(N : ℚ) / 10 -
          100 * (equalCount fd (·.ViolenceAgainstWomen) "Yes" : ℚ) / (fd.length : ℚ)| ≤
        1 / 20 := by
  have hpos : 0 < fd.length := List.length_pos.mpr hne
  have hk : countEq fd (·.ViolenceAgainstWomen) "Yes" ≤ fd.length := List.length_filter_le _ _
  obtain ⟨N, hs, hb⟩ :=
    percentage_string (countEq fd (·.ViolenceAgainstWomen) "Yes") fd.length hk hpos hlen
  refine ⟨N, ?_, ?_⟩
  · unfold mainInference
    simp only [gt_iff_lt, hpos, if_true]
    rw [hs]
  · rw [← countEq_eq_equalCount]
    exact hb

/-- C10 at the four-record example: one "Yes" out of four gives "25.0%". -/
theorem C10_headline_witness :
    headlineExample ≠ [] ∧ headlineExample.length < 2 ^ 32 ∧
      (∃ N : Nat,
        mainInference headlineExample =
          toString (N / 10) ++ "." ++ toString (N % 10) ++
            "% of women surveyed have experienced some form of violence." ∧
        |(N : ℚ) / 10 -
            100 * (equalCount headlineExample (·.ViolenceAgainstWomen) "Yes" : ℚ) /
              (headlineExample.length : ℚ)| ≤ 1 / 20) ∧
      mainInference headlineExample =
        "25.0% of women surveyed have experienced some form of violence." :=
  ⟨List.cons_ne_nil _ _, by decide,
    C10_headline headlineExample (List.cons_ne_nil _ _) (by decide), by rfl⟩

/-- Halfway cases follow binary64 arithmetic: 1 of 16 (6.25) prints as 6.3, while 3 of 2000
(0.15) prints as 0.1, the product `(3 / 2000) * 100` being just below 0.15 as a double. -/
theorem percentage_halfway_examples :
    toFixed1 (jsMul (jsDiv (.ofNat 1) (.ofNat 16)) (.ofNat 100)) = "6.3" ∧
      toFixed1 (jsMul (jsDiv (.ofNat 3) (.ofNat 2000)) (.ofNat 100)) = "0.1" :=
  ⟨by rfl, by rfl⟩

/-! ## Zero guard, draft variant and filter/table agreement: claims C11, C16, C17, C18 -/

/-- C11: zero guard.  With no records the guarded percentage is the literal `0` whatever the
numerator (the division sits in the branch not taken); `mainInference` is "0% of women
surveyed have experienced some form of violence." and `generateInferences` returns its three
sentences, each beginning with "0%". -/
theorem C11_zero_guard :
    (∀ k : Nat, guardedPercentage k 0 = "0") ∧
      mainInference [] = "0% of women surveyed have experienced some form of violence." ∧
      generateInferences [] = .ok
        [ "0% of respondents believe physical violence against women is common in their community.",
          "0% of participants identify the home as a common location for violence against women.",
          "0% of respondents cite fear of retaliation as a major barrier to reporting sexual violence." ] ∧
      (∀ b, generateInferences [] = .ok b →
        b.length = 3 ∧ ∀ s ∈ b, ∃ rest : String, s = "0%" ++ rest) := by
  refine ⟨fun k => rfl, rfl, rfl, ?_⟩
  intro b hb
  have h : generateInferences [] = .ok
      [ "0% of respondents believe physical violence against women is common in their community.",
        "0% of participants identify the home as a common location for violence against women.",
        "0% of respondents cite fear of retaliation as a major barrier to reporting sexual violence." ] :=
    rfl
  rw [h] at hb
  cases hb
  refine ⟨rfl, ?_⟩
  intro s hs
  simp only [List.mem_cons, List.mem_singleton, List.not_mem_nil, or_false] at hs
  rcases hs with rfl | rfl | rfl
  · exact ⟨" of respondents believe physical violence against women is common in their community.",
      by decide⟩
  · exact ⟨" of participants identify the home as a common location for violence against women.",
      by decide⟩
  · exact ⟨" of respondents cite fear of retaliation as a major barrier to reporting sexual violence.",
      by decide⟩

/-- C17: the draft does not guard the division.  For the empty list `0 / 0` is `NaN` and
the draft's headline is "NaN% of women surveyed have experienced some form of violence."
(its three bullets begin with "NaN%" as well), whereas the shipped `mainInference` gives
the "0%" headline for the same input. -/
theorem C17_draft_unguarded :
    jsDiv (.ofNat 0) (.ofNat 0) = .nan ∧
      Draft.mainInference [] =
        "NaN% of women surveyed have experienced some form of violence." ∧
      mainInference [] = "0% of women surveyed have experienced some form of violence." ∧
      Draft.generateInferences [] = .ok
        [ "NaN% of women under the age of 25 feel unsafe at their workplace or educational institution.",
          "NaN% of respondents recognize verbal abuse as a form of violence against women.",
          "NaN% of participants identify online harassment as a significant issue for women." ] :=
  ⟨rfl, rfl, rfl, rfl⟩

theorem draft_filteredData_eq (rs : List SurveyRecord) (age location : String) :
    Draft.filteredData rs age location = filteredData rs age location "All" := by
  unfold Draft.filteredData filteredData
  apply List.filter_congr
  intro r _
  simp

theorem draft_violenceTypes_eq (fd : List SurveyRecord) :
    Draft.violenceTypes fd = violenceTypes fd := by
  unfold Draft.violenceTypes violenceTypes violenceTypesUnsorted
  simp only [bind_assoc, pure_bind]

theorem draft_processData_of_ok (fd : List SurveyRecord) (t : Tables)
    (h : processData fd = .ok t) :
    Draft.processData fd = .ok
      { ageDistribution := t.ageDistribution, violenceFamiliarity := t.violenceFamiliarity,
        violenceTypes := t.violenceTypes } := by
  unfold Draft.processData
  rw [draft_violenceTypes_eq]
  unfold processData at h
  cases h2 : violenceTypes fd with
  | error e => rw [h2] at h; cases h
  | ok t2 =>
    rw [h2] at h
    cases h4 : violenceLocation fd with
    | error e => rw [h4] at h; cases h
    | ok t4 =>
      rw [h4] at h
      cases h5 : reportingBarriers fd with
      | error e => rw [h5] at h; cases h
      | ok t5 =>
        rw [h5] at h
        cases h
        rfl

/-- C16: the draft is a restriction of the shipped component.  Its `filteredData` is the
shipped one with education "All"; on the same filtered list its three arrays are the
shipped ones (so whenever the shipped `processData` returns, the draft's returns the same
three tables, and both return on records shaped as in the data model); and the two
headlines agree on a non-empty list. -/
theorem C16_draft_restriction (rs fd : List SurveyRecord) (age location : String) :
    Draft.filteredData rs age location = filteredData rs age location "All" ∧
      Draft.ageDistribution fd = ageDistribution fd ∧
      Draft.violenceFamiliarity fd = violenceFamiliarity fd ∧
      Draft.violenceTypes fd = violenceTypes fd ∧
      (∀ t, processData fd = .ok t →
        Draft.processData fd = .ok
          { ageDistribution := t.ageDistribution, violenceFamiliarity := t.violenceFamiliarity,
            violenceTypes := t.violenceTypes }) ∧
      (WellTyped fd → ∃ t d, processData fd = .ok t ∧ Draft.processData fd = .ok d ∧
        d.ageDistribution = t.ageDistribution ∧ d.violenceFamiliarity = t.violenceFamiliarity ∧
        d.violenceTypes = t.violenceTypes) ∧
      (fd ≠ [] → Draft.mainInference fd = mainInference fd) := by
  refine ⟨draft_filteredData_eq rs age location, rfl, rfl, draft_violenceTypes_eq fd,
    draft_processData_of_ok fd, ?_, ?_⟩
  · intro hw
    exact ⟨_, _, processData_ok fd hw, draft_processData_of_ok fd _ (processData_ok fd hw),
      rfl, rfl, rfl⟩
  · intro hne
    have hpos : 0 < fd.length := List.length_pos.mpr hne
    unfold Draft.mainInference mainInference
    simp only [gt_iff_lt, hpos, if_true]

/-- C16 at the membership example (filter) and the headline example. -/
theorem C16_draft_restriction_witness :
    WellTyped headlineExample ∧ headlineExample ≠ [] ∧
      (∃ t d, processData headlineExample = .ok t ∧ Draft.processData headlineExample = .ok d ∧
        d.ageDistribution = t.ageDistribution ∧ d.violenceFamiliarity = t.violenceFamiliarity ∧
        d.violenceTypes = t.violenceTypes) ∧
      Draft.mainInference headlineExample = mainInference headlineExample ∧
      Draft.mainInference headlineExample =
        "25.0% of women surveyed have experienced some form of violence." :=
  ⟨by decide, List.cons_ne_nil _ _,
    (C16_draft_restriction membershipExample headlineExample "18–24" "All").2.2.2.2.2.1
      (by decide),
    (C16_draft_restriction membershipExample headlineExample "18–24" "All").2.2.2.2.2.2
      (List.cons_ne_nil _ _),
    by rfl⟩

theorem countEq_of_all_eq (fd : List SurveyRecord) (field : SurveyRecord → JsValue)
    (v key : String) (h : ∀ r ∈ fd, field r = JsValue.str v) :
    countEq fd field key = if key = v then fd.length else 0 := by
  unfold countEq
  by_cases hk : key = v
  · rw [if_pos hk]
    congr 1
    rw [List.filter_eq_self]
    intro r hr
    rw [h r hr, hk]
    simp [strictEq]
  · rw [if_neg hk, List.length_eq_zero, List.filter_eq_nil_iff]
    intro r hr
    rw [h r hr]
    simp [strictEq, Ne.symm hk]

/-- C18: filter and age table agree.  When the age selection is one of the seven band keys,
`ageDistribution` of the filtered list holds the filtered length in that band's entry and 0
in the other six. -/
theorem C18_filter_age_table (rs : List SurveyRecord) (location education : String)
    (p : String × String) (hp : p ∈ ageBands) :
    ageDistribution (filteredData rs p.2 location education) =
      ageBands.map fun q =>
        Entry.mk q.1 (if q.2 = p.2 then (filteredData rs p.2 location education).length else 0) := by
  have hne : p.2 ≠ "All" := by
    intro h
    have : ∀ q ∈ ageBands, q.2 ≠ "All" := by decide
    exact this p hp h
  have hall : ∀ r ∈ filteredData rs p.2 location education, r.AgeGroup = JsValue.str p.2 := by
    intro r hr
    rw [filteredData_eq_filter] at hr
    have := (List.mem_filter.mp hr).2
    simp only [decide_eq_true_eq] at this
    exact this.1.resolve_left hne
  simp only [ageDistribution, ageBands, List.map_cons, List.map_nil,
    countEq_of_all_eq _ (·.AgeGroup) p.2 _ hall]

/-- C18 at the band 18–24 and the four-record age example: the table is 0, 2, 0, 0, 0, 0, 0. -/
theorem C18_filter_age_table_witness :
    (("18-24", "18–24") : String × String) ∈ ageBands ∧
      ageDistribution (filteredData ageExample "18–24" "All" "All") =
        (ageBands.map fun q =>
          Entry.mk q.1 (if q.2 = "18–24" then
            (filteredData ageExample "18–24" "All" "All").length else 0)) ∧
      ageDistribution (filteredData ageExample "18–24" "All" "All") =
        [ ⟨"Under 18", 0⟩, ⟨"18-24", 2⟩, ⟨"25-34", 0⟩, ⟨"35-44", 0⟩, ⟨"45-54", 0⟩,
          ⟨"55-64", 0⟩, ⟨"65 and above", 0⟩ ] :=
  ⟨by decide, C18_filter_age_table ageExample "All" "All" ("18-24", "18–24") (by decide),
    by decide⟩

/-! ## Bullets: claims C12 and C19 -/

theorem guardedPercentage_string (k n : Nat) (hk : k ≤ n) (hn : 0 < n) (hn32 : n < 2 ^ 32) :
    ∃ N : Nat, guardedPercentage k n = tenthsText N ∧
      |(N : ℚ) / 10 - 100 * (k : ℚ) / n| ≤ 1 / 20 := by
  obtain ⟨N, hs, hb⟩ := percentage_string k n hk hn hn32
  refine ⟨N, ?_, hb⟩
  unfold guardedPercentage tenthsText
  rw [if_pos hn, hs]

theorem physicalViolenceCommon_eq (fd : List SurveyRecord) :
    physicalViolenceCommon fd = commonCount fd := by
  unfold physicalViolenceCommon commonCount
  congr 1
  apply List.filter_congr
  intro r _
  rw [Bool.eq_iff_iff]
  simp [strictEq_iff]

theorem containsCount_le (fd : List SurveyRecord) (field : SurveyRecord → JsValue)
    (label : String) : containsCount fd field label ≤ fd.length :=
  List.length_filter_le _ _

/-- C12: bullets.  For a non-empty filtered list of `n` records (`n < 2 ^ 32`) whose two
multi-label fields read by the bullets have the data model's shape, `generateInferences`
returns exactly three sentences, each a one-decimal percentage followed by its fixed text
beginning "% of"; the percentages lie within one twentieth of `100 * matching / n`, where
`matching` counts the records rating physical violence "Very common" or "Somewhat common",
those whose PhysicalViolenceLocation contains "At home", and those whose
SexualViolenceBarrier contains "Fear of retaliation". -/
theorem C12_bullets (fd : List SurveyRecord) (hne : fd ≠ []) (hlen : fd.length < 2 ^ 32)
    (hloc : ∀ r ∈ fd, Includable r.PhysicalViolenceLocation)
    (hbar : ∀ r ∈ fd, Includable r.SexualViolenceBarrier) :
    ∃ N1 N2 N3 : Nat,
      generateInferences fd = .ok
        [ tenthsText N1 ++
            "% of respondents believe physical violence against women is common in their community.",
          tenthsText N2 ++
            "% of participants identify the home as a common location for violence against women.",
          tenthsText N3 ++
            "% of respondents cite fear of retaliation as a major barrier to reporting sexual violence." ] ∧
      |(N1 : ℚ) / 10 - 100 * (commonCount fd : ℚ) / (fd.length : ℚ)| ≤ 1 / 20 ∧
      |(N2 : ℚ) / 10 -
          100 * (containsCount fd (·.PhysicalViolenceLocation) "At home" : ℚ) /
            (fd.length : ℚ)| ≤ 1 / 20 ∧
      |(N3 : ℚ) / 10 -
          100 * (containsCount fd (·.SexualViolenceBarrier) "Fear of retaliation" : ℚ) /
            (fd.length : ℚ)| ≤ 1 / 20 := by
  have hpos : 0 < fd.length := List.length_pos.mpr hne
  have h1 : commonCount fd ≤ fd.length := List.length_filter_le _ _
  obtain ⟨N1, hs1, hb1⟩ := guardedPercentage_string _ _ h1 hpos hlen
  obtain ⟨N2, hs2, hb2⟩ := guardedPercentage_string _ _
    (containsCount_le fd (·.PhysicalViolenceLocation) "At home") hpos hlen
  obtain ⟨N3, hs3, hb3⟩ := guardedPercentage_string _ _
    (containsCount_le fd (·.SexualViolenceBarrier) "Fear of retaliation") hpos hlen
  refine ⟨N1, N2, N3, ?_, hb1, hb2, hb3⟩
  have hh : homeViolence fd = .ok (containsCount fd (·.PhysicalViolenceLocation) "At home") :=
    countIncludes_ok fd _ _ hloc (by decide)
  have hf : fearRetaliation fd =
      .ok (containsCount fd (·.SexualViolenceBarrier) "Fear of retaliation") :=
    countIncludes_ok fd _ _ hbar (by decide)
  unfold generateInferences
  rw [hh, hf, physicalViolenceCommon_eq, ← hs1, ← hs2, ← hs3]
  rfl

/-- C12 at the three fully answered records: two of three rate physical violence common. -/
theorem C12_bullets_witness :
    answeredExample ≠ [] ∧ answeredExample.length < 2 ^ 32 ∧
      (∀ r ∈ answeredExample, Includable r.PhysicalViolenceLocation) ∧
      (∀ r ∈ answeredExample, Includable r.SexualViolenceBarrier) ∧
      (∃ N1 N2 N3 : Nat,
        generateInferences answeredExample = .ok
          [ tenthsText N1 ++
              "% of respondents believe physical violence against women is common in their community.",
            tenthsText N2 ++
              "% of participants identify the home as a common location for violence against women.",
            tenthsText N3 ++
              "% of respondents cite fear of retaliation as a major barrier to reporting sexual violence." ] ∧
        |(N1 : ℚ) / 10 - 100 * (commonCount answeredExample : ℚ) /
          (answeredExample.length : ℚ)| ≤ 1 / 20) ∧
      generateInferences answeredExample = .ok
        [ "66.7% of respondents believe physical violence against women is common in their community.",
          "0.0% of participants identify the home as a common location for violence against women.",
          "0.0% of respondents cite fear of retaliation as a major barrier to reporting sexual violence." ] := by
  have h1 : ∀ r ∈ answeredExample, Includable r.PhysicalViolenceLocation := by decide
  have h2 : ∀ r ∈ answeredExample, Includable r.SexualViolenceBarrier := by decide
  obtain ⟨N1, N2, N3, hs, hb, _⟩ :=
    C12_bullets answeredExample (List.cons_ne_nil _ _) (by decide) h1 h2
  exact ⟨List.cons_ne_nil _ _, by decide, h1, h2, ⟨N1, N2, N3, hs, hb⟩, by rfl⟩

theorem valueOf_labelTable (fd : List SurveyRecord) (field : SurveyRecord → JsValue)
    (labels : List (String × String)) (hnd : (labels.map (·.1)).Nodup)
    (t : List Entry) (ht : List.Perm t (labelTable fd field labels))
    (p : String × String) (hp : p ∈ labels) :
    valueOf t p.1 = some (containsCount fd field p.2) := by
  unfold valueOf
  cases hfind : t.find? (fun e => e.name == p.1) with
  | none =>
    exfalso
    have hmem : (⟨p.1, containsCount fd field p.2⟩ : Entry) ∈ t :=
      ht.symm.subset (List.mem_map.mpr ⟨p, hp, rfl⟩)
    have := List.find?_eq_none.mp hfind _ hmem
    simp at this
  | some e =>
    have hname : e.name = p.1 := by
      have := List.find?_some hfind
      simpa using this
    have hmem : e ∈ t := List.mem_of_find?_eq_some hfind
    simp only [Option.map_some']
    rw [labelTable_value fd field labels hnd t ht e hmem p hp hname]

theorem common_filter_split (fd : List SurveyRecord) :
    (fd.filter fun item =>
        strictEq item.PhysicalViolence "Very common" ||
          strictEq item.PhysicalViolence "Somewhat common").length =
      (fd.filter fun item => strictEq item.PhysicalViolence "Very common").length +
        (fd.filter fun item => strictEq item.PhysicalViolence "Somewhat common").length := by
  have key : ∀ r : SurveyRecord, ¬ (strictEq r.PhysicalViolence "Very common" = true ∧
      strictEq r.PhysicalViolence "Somewhat common" = true) := by
    intro r ⟨h1, h2⟩
    rw [strictEq_iff] at h1 h2
    rw [h1] at h2
    injection h2 with h3
    exact absurd h3 (by decide)
  induction fd with
  | nil => rfl
  | cons r rs ih =>
    have hx := key r
    simp only [List.filter_cons]
    cases ha : strictEq r.PhysicalViolence "Very common" <;>
      cases hb : strictEq r.PhysicalViolence "Somewhat common"
    · simpa using ih
    · simp only [Bool.false_or, if_true, Bool.false_eq_true, if_false, List.length_cons]
      omega
    · simp only [Bool.true_or, Bool.or_false, if_true, Bool.false_eq_true, if_false,
        List.length_cons]
      omega
    · exact absurd ⟨ha, hb⟩ hx

theorem physicalViolenceCommon_split (fd : List SurveyRecord) :
    physicalViolenceCommon fd =
      countEq fd (·.PhysicalViolence) "Very common" +
        countEq fd (·.PhysicalViolence) "Somewhat common" :=
  common_filter_split fd

/-- C19: bullets agree with the tables.  The numerator of the first bullet is the sum of the
"Very common" and "Somewhat common" values of `physicalViolencePrevalence`; on records shaped
as in the data model the numerator of the second bullet is the value of the "At home" entry
of `violenceLocation` and that of the third the value of the "Fear of retaliation" entry of
`reportingBarriers`, wherever sorting placed them. -/
theorem C19_bullets_match_tables (fd : List SurveyRecord) (h : WellTyped fd) :
    (∃ a b, valueOf (physicalViolencePrevalence fd) "Very common" = some a ∧
        valueOf (physicalViolencePrevalence fd) "Somewhat common" = some b ∧
        physicalViolenceCommon fd = a + b) ∧
      ∃ t, processData fd = .ok t ∧
        (∃ c, valueOf t.violenceLocation "At home" = some c ∧ homeViolence fd = .ok c) ∧
        (∃ d, valueOf t.reportingBarriers "Fear of retaliation" = some d ∧
          fearRetaliation fd = .ok d) := by
  refine ⟨⟨_, _, rfl, rfl, physicalViolenceCommon_split fd⟩, _, processData_ok fd h, ?_, ?_⟩
  · refine ⟨_, valueOf_labelTable fd _ violenceLocationLabels (by decide) _ (jsSort_perm _)
      ("At home", "At home") (by decide), ?_⟩
    exact countIncludes_ok fd _ _ (fun r hr => (h r hr).2.1) (by decide)
  · refine ⟨_, valueOf_labelTable fd _ reportingBarrierLabels (by decide) _ (jsSort_perm _)
      ("Fear of retaliation", "Fear of retaliation") (by decide), ?_⟩
    exact countIncludes_ok fd _ _ (fun r hr => (h r hr).2.2) (by decide)

/-- C19 at the two-record example in which one record names the home among several
locations. -/
theorem C19_bullets_match_tables_witness :
    WellTyped tolerantExample ∧
      (∃ t, processData tolerantExample = .ok t ∧
        (∃ c, valueOf t.violenceLocation "At home" = some c ∧
          homeViolence tolerantExample = .ok c)) ∧
      homeViolence tolerantExample = .ok 1 ∧ fearRetaliation tolerantExample = .ok 1 ∧
      physicalViolenceCommon tolerantExample = 1 := by
  have hw : WellTyped tolerantExample := by decide
  obtain ⟨_, t, ht, hc, _⟩ := C19_bullets_match_tables tolerantExample hw
  exact ⟨hw, ⟨t, ht, hc⟩, by rfl, by rfl, by rfl⟩

/-! ## Malformed and absent fields, loading: claims C13, C14, C15 -/

/-- A value that is not a string is strictly equal to no key. -/
theorem strictEq_of_not_str (v : JsValue) (key : String) (h : ∀ s, v ≠ JsValue.str s) :
    strictEq v key = false := by
  rw [← Bool.not_eq_true, strictEq_iff]
  exact h key

/-- A falsy or otherwise label-free value of the data model's shape contains no label. -/
theorem andIncludes_of_not_container (v : JsValue) (label : String) (hv : Includable v)
    (hs : ∀ s, v ≠ JsValue.str s) (ha : ∀ xs, v ≠ JsValue.arr xs) :
    andIncludes v label = .ok false := by
  cases v with
  | str s => exact absurd rfl (hs s)
  | arr xs => exact absurd rfl (ha xs)
  | undefined => rfl
  | null => rfl
  | bool b =>
    have hb : b = false := hv
    subst hb; rfl
  | num n =>
    have hn : truthy (JsValue.num n) = false := hv
    simp [andIncludes, hn]
  | obj fs =>
    have hn : truthy (JsValue.obj fs) = false := hv
    simp [truthy] at hn

theorem generateInferences_ok (fd : List SurveyRecord)
    (hloc : ∀ r ∈ fd, Includable r.PhysicalViolenceLocation)
    (hbar : ∀ r ∈ fd, Includable r.SexualViolenceBarrier) :
    ∃ b, generateInferences fd = .ok b ∧ b.length = 3 := by
  have hh : homeViolence fd = .ok (containsCount fd (·.PhysicalViolenceLocation) "At home") :=
    countIncludes_ok fd _ _ hloc (by decide)
  have hf : fearRetaliation fd =
      .ok (containsCount fd (·.SexualViolenceBarrier) "Fear of retaliation") :=
    countIncludes_ok fd _ _ hbar (by decide)
  unfold generateInferences
  rw [hh, hf]
  exact ⟨_, rfl, rfl⟩

/-- C13, as stated, fails: one record holding a number, a boolean and a nested object in its
three multi-label fields makes `.includes` raise a `TypeError`, which aborts both
`processData` and `generateInferences`. -/
theorem C13_malformed_counterexample :
    processData malformedExample = .error .typeError ∧
      generateInferences malformedExample = .error .typeError ∧
      ¬ ((∃ t, processData malformedExample = .ok t) ∧
        ∃ b, generateInferences malformedExample = .ok b) := by
  have h1 : processData malformedExample = .error .typeError := rfl
  have h2 : generateInferences malformedExample = .error .typeError := rfl
  refine ⟨h1, h2, ?_⟩
  rintro ⟨⟨t, ht⟩, _⟩
  rw [h1] at ht
  cases ht

/-- C13, amended: for every record list whose three multi-label fields are each absent,
falsy, a string or an array, whatever the other six fields hold, the six tables and the
three bullets are computed without an exception (the filter and the headline are total
functions); a field that is not a string matches no exact-match key, and a multi-label
field that is neither a string nor an array contains no label. -/
theorem C13_total_on_data_model (fd : List SurveyRecord) (h : WellTyped fd) :
    (∃ t, processData fd = .ok t) ∧
      (∃ b, generateInferences fd = .ok b ∧ b.length = 3) ∧
      (∀ r ∈ fd, ∀ (field : SurveyRecord → JsValue) (key : String),
        (∀ s, field r ≠ JsValue.str s) → strictEq (field r) key = false) ∧
      (∀ r ∈ fd, ∀ label : String,
        ((∀ s, r.ViolenceAgainstWomenTypes ≠ JsValue.str s) →
          (∀ xs, r.ViolenceAgainstWomenTypes ≠ JsValue.arr xs) →
          andIncludes r.ViolenceAgainstWomenTypes label = .ok false) ∧
        ((∀ s, r.PhysicalViolenceLocation ≠ JsValue.str s) →
          (∀ xs, r.PhysicalViolenceLocation ≠ JsValue.arr xs) →
          andIncludes r.PhysicalViolenceLocation label = .ok false) ∧
        ((∀ s, r.SexualViolenceBarrier ≠ JsValue.str s) →
          (∀ xs, r.SexualViolenceBarrier ≠ JsValue.arr xs) →
          andIncludes r.SexualViolenceBarrier label = .ok false)) := by
  refine ⟨⟨_, processData_ok fd h⟩,
    generateInferences_ok fd (fun r hr => (h r hr).2.1) (fun r hr => (h r hr).2.2), ?_, ?_⟩
  · intro r _ field key hs
    exact strictEq_of_not_str _ key hs
  · intro r hr label
    exact ⟨andIncludes_of_not_container _ label (h r hr).1,
      andIncludes_of_not_container _ label (h r hr).2.1,
      andIncludes_of_not_container _ label (h r hr).2.2⟩

/-- C13 amended, at two records with malformed exact-match fields and multi-label fields
that are missing, null, `false`, a string or an array. -/
theorem C13_total_on_data_model_witness :
    WellTyped tolerantExample ∧
      (∃ t, processData tolerantExample = .ok t) ∧
      (∃ b, generateInferences tolerantExample = .ok b ∧ b.length = 3) ∧
      ageDistribution tolerantExample =
        [ ⟨"Under 18", 0⟩, ⟨"18-24", 1⟩, ⟨"25-34", 0⟩, ⟨"35-44", 0⟩, ⟨"45-54", 0⟩,
          ⟨"55-64", 0⟩, ⟨"65 and above", 0⟩ ] ∧
      mainInference tolerantExample =
        "50.0% of women surveyed have experienced some form of violence." := by
  have hw : WellTyped tolerantExample := by decide
  have h := C13_total_on_data_model tolerantExample hw
  exact ⟨hw, h.1, h.2.1, by decide, by rfl⟩

/-! ## Absent fields and loading: claims C14 and C15 -/

theorem filter_insert_false {α : Type} (p : α → Bool) (r : α) (l1 l2 : List α)
    (h : p r = false) : (l1 ++ r :: l2).filter p = (l1 ++ l2).filter p := by
  simp [List.filter_append, List.filter_cons, h]

theorem filterE_insert_false {α : Type} (p : α → Except JsError Bool) (r : α)
    (l1 l2 : List α) (h : p r = .ok false) :
    filterE p (l1 ++ r :: l2) = filterE p (l1 ++ l2) := by
  induction l1 with
  | nil =>
    show filterE p (r :: l2) = filterE p l2
    rw [show filterE p (r :: l2) =
      (match p r with
        | .error e => .error e
        | .ok b =>
          match filterE p l2 with
          | .error e => .error e
          | .ok ys => .ok (if b then r :: ys else ys)) from rfl, h]
    cases filterE p l2 <;> rfl
  | cons x xs ih =>
    show filterE p (x :: (xs ++ r :: l2)) = filterE p (x :: (xs ++ l2))
    simp only [filterE, ih]

theorem countEq_insert_absent (r : SurveyRecord) (l1 l2 : List SurveyRecord)
    (field : SurveyRecord → JsValue) (key : String) (h : field r = .undefined) :
    countEq (l1 ++ r :: l2) field key = countEq (l1 ++ l2) field key := by
  unfold countEq
  rw [filter_insert_false]
  show strictEq (field r) key = false
  rw [h]; rfl

theorem countIncludes_insert_absent (r : SurveyRecord) (l1 l2 : List SurveyRecord)
    (field : SurveyRecord → JsValue) (label : String) (h : field r = .undefined) :
    countIncludes (l1 ++ r :: l2) field label = countIncludes (l1 ++ l2) field label := by
  unfold countIncludes
  rw [filterE_insert_false]
  show andIncludes (field r) label = .ok false
  rw [h]; rfl

theorem mem_filteredData_iff (rs : List SurveyRecord) (a l e : String) (r : SurveyRecord) :
    r ∈ filteredData rs a l e ↔ r ∈ rs ∧ Passes a l e r := by
  rw [filteredData_eq_filter]
  simp

theorem not_mem_filteredData_of_absent (r : SurveyRecord) :
    (r.AgeGroup = .undefined → ∀ rs v l e, v ≠ "All" → r ∉ filteredData rs v l e) ∧
      (r.Location = .undefined → ∀ rs a v e, v ≠ "All" → r ∉ filteredData rs a v e) ∧
      (r.Education = .undefined → ∀ rs a l v, v ≠ "All" → r ∉ filteredData rs a l v) := by
  refine ⟨?_, ?_, ?_⟩
  · intro h rs v l e hv hmem
    have hp := ((mem_filteredData_iff rs v l e r).mp hmem).2
    rcases hp.1 with h1 | h1
    · exact hv h1
    · rw [h] at h1; cases h1
  · intro h rs a v e hv hmem
    have hp := ((mem_filteredData_iff rs a v e r).mp hmem).2
    rcases hp.2.1 with h1 | h1
    · exact hv h1
    · rw [h] at h1; cases h1
  · intro h rs a l v hv hmem
    have hp := ((mem_filteredData_iff rs a l v r).mp hmem).2
    rcases hp.2.2 with h1 | h1
    · exact hv h1
    · rw [h] at h1; cases h1

/-- C14: absent fields never match.  A record with a field absent fails the filter for every
selection other than "All" on that field; taking the record out of a filtered list changes
no count of the table built on that field (exact-match or multi-label), nor the numerator of
the headline or of the bullet that tests the field; and the record is counted in the length
of the list, the filtered total. -/
theorem C14_absent_never_matches (r : SurveyRecord) (l1 l2 : List SurveyRecord) :
    (r.AgeGroup = .undefined →
        (∀ rs v l e, v ≠ "All" → r ∉ filteredData rs v l e) ∧
        ageDistribution (l1 ++ r :: l2) = ageDistribution (l1 ++ l2)) ∧
      (r.Location = .undefined → ∀ rs a v e, v ≠ "All" → r ∉ filteredData rs a v e) ∧
      (r.Education = .undefined → ∀ rs a l v, v ≠ "All" → r ∉ filteredData rs a l v) ∧
      (r.ViolenceFamiliarity = .undefined →
        violenceFamiliarity (l1 ++ r :: l2) = violenceFamiliarity (l1 ++ l2)) ∧
      (r.ViolenceAgainstWomenTypes = .undefined →
        violenceTypes (l1 ++ r :: l2) = violenceTypes (l1 ++ l2)) ∧
      (r.PhysicalViolence = .undefined →
        physicalViolencePrevalence (l1 ++ r :: l2) = physicalViolencePrevalence (l1 ++ l2) ∧
        physicalViolenceCommon (l1 ++ r :: l2) = physicalViolenceCommon (l1 ++ l2)) ∧
      (r.PhysicalViolenceLocation = .undefined →
        violenceLocation (l1 ++ r :: l2) = violenceLocation (l1 ++ l2) ∧
        homeViolence (l1 ++ r :: l2) = homeViolence (l1 ++ l2)) ∧
      (r.SexualViolenceBarrier = .undefined →
        reportingBarriers (l1 ++ r :: l2) = reportingBarriers (l1 ++ l2) ∧
        fearRetaliation (l1 ++ r :: l2) = fearRetaliation (l1 ++ l2)) ∧
      (r.ViolenceAgainstWomen = .undefined →
        countEq (l1 ++ r :: l2) (·.ViolenceAgainstWomen) "Yes" =
          countEq (l1 ++ l2) (·.ViolenceAgainstWomen) "Yes") ∧
      (l1 ++ r :: l2).length = (l1 ++ l2).length + 1 := by
  refine ⟨fun h => ⟨(not_mem_filteredData_of_absent r).1 h, ?_⟩,
    (not_mem_filteredData_of_absent r).2.1, (not_mem_filteredData_of_absent r).2.2,
    fun h => ?_, fun h => ?_, fun h => ⟨?_, ?_⟩, fun h => ⟨?_, ?_⟩, fun h => ⟨?_, ?_⟩,
    fun h => ?_, ?_⟩
  · simp only [ageDistribution, countEq_insert_absent r l1 l2 (·.AgeGroup) _ h]
  · simp only [violenceFamiliarity, countEq_insert_absent r l1 l2 (·.ViolenceFamiliarity) _ h]
  · simp only [violenceTypes, violenceTypesUnsorted,
      countIncludes_insert_absent r l1 l2 (·.ViolenceAgainstWomenTypes) _ h]
  · simp only [physicalViolencePrevalence,
      countEq_insert_absent r l1 l2 (·.PhysicalViolence) _ h]
  · unfold physicalViolenceCommon
    rw [filter_insert_false]
    show (strictEq r.PhysicalViolence "Very common" ||
      strictEq r.PhysicalViolence "Somewhat common") = false
    rw [h]; rfl
  · simp only [violenceLocation, violenceLocationUnsorted,
      countIncludes_insert_absent r l1 l2 (·.PhysicalViolenceLocation) _ h]
  · exact countIncludes_insert_absent r l1 l2 (·.PhysicalViolenceLocation) _ h
  · simp only [reportingBarriers, reportingBarriersUnsorted,
      countIncludes_insert_absent r l1 l2 (·.SexualViolenceBarrier) _ h]
  · exact countIncludes_insert_absent r l1 l2 (·.SexualViolenceBarrier) _ h
  · exact countEq_insert_absent r l1 l2 (·.ViolenceAgainstWomen) _ h
  · simp only [List.length_append, List.length_cons]
    omega

/-- C14 at the record with every field absent, placed between the records of the age
example and those of the membership example. -/
theorem C14_absent_never_matches_witness :
    emptyRecord.AgeGroup = .undefined ∧
      (∀ rs v l e, v ≠ "All" → emptyRecord ∉ filteredData rs v l e) ∧
      ageDistribution (ageExample ++ emptyRecord :: membershipExample) =
        ageDistribution (ageExample ++ membershipExample) ∧
      emptyRecord.PhysicalViolenceLocation = .undefined ∧
      homeViolence (ageExample ++ emptyRecord :: membershipExample) =
        homeViolence (ageExample ++ membershipExample) ∧
      emptyRecord.ViolenceAgainstWomen = .undefined ∧
      countEq (ageExample ++ emptyRecord :: membershipExample) (·.ViolenceAgainstWomen) "Yes" =
        countEq (ageExample ++ membershipExample) (·.ViolenceAgainstWomen) "Yes" ∧
      (ageExample ++ emptyRecord :: membershipExample).length =
        (ageExample ++ membershipExample).length + 1 :=
  ⟨rfl, ((C14_absent_never_matches emptyRecord ageExample membershipExample).1 rfl).1,
    ((C14_absent_never_matches emptyRecord ageExample membershipExample).1 rfl).2,
    rfl,
    ((C14_absent_never_matches emptyRecord ageExample membershipExample).2.2.2.2.2.2.1 rfl).2,
    rfl,
    (C14_absent_never_matches emptyRecord ageExample membershipExample).2.2.2.2.2.2.2.2.1 rfl,
    (C14_absent_never_matches emptyRecord ageExample membershipExample).2.2.2.2.2.2.2.2.2⟩

/-- C15, as stated, fails on the shipped component: after a failed fetch of any kind it
holds no error state and shows no message, the text goes to the console only and the page
is the dashboard with 0 / 0 responses. -/
theorem C15_shipped_counterexample :
    render (fetchData initialState .rejected).1 = .dashboard 0 (some 0) ∧
      render (fetchData initialState (.response false none)).1 = .dashboard 0 (some 0) ∧
      render (fetchData initialState (.response true none)).1 = .dashboard 0 (some 0) ∧
      (fetchData initialState .rejected).2 = ["Please try again later."] ∧
      ¬ ∃ message, render (fetchData initialState .rejected).1 = Screen.error message := by
  refine ⟨rfl, rfl, rfl, rfl, ?_⟩
  rintro ⟨message, h⟩
  have h0 : render (fetchData initialState .rejected).1 = .dashboard 0 (some 0) := rfl
  rw [h0] at h
  cases h

/-- C15, amended: every kind of failure (network error, non-ok status, unparsable body)
collapses to the same outcome and leaves the record sequence empty, so the filtered and
total counts are 0.  On such a failure the draft records the error state "Please try again
later.", which its page shows as the error line, while the shipped component only writes
that text to the console and shows the dashboard with 0 / 0.  On success the record
sequence is exactly the parsed array, in both. -/
theorem C15_load_outcomes (r : FetchResult) :
    (IsFailure r →
        fetchData initialState r = (initialState, ["Please try again later."]) ∧
        (fetchData initialState r).1.surveyData = [] ∧
        render (fetchData initialState r).1 = .dashboard 0 (some 0) ∧
        (Draft.fetchData Draft.initialState r).error = "Please try again later." ∧
        (Draft.fetchData Draft.initialState r).loading = false ∧
        (Draft.fetchData Draft.initialState r).surveyData = [] ∧
        Draft.render (Draft.fetchData Draft.initialState r) =
          .error "Please try again later.") ∧
      (∀ data, r = .response true (some data) →
        (fetchData initialState r).1.surveyData = data ∧
        (fetchData initialState r).2 = [] ∧
        (Draft.fetchData Draft.initialState r).surveyData = data ∧
        (Draft.fetchData Draft.initialState r).error = "" ∧
        (Draft.fetchData Draft.initialState r).loading = false) := by
  constructor
  · rintro (rfl | ⟨json, rfl⟩ | rfl)
    · exact ⟨rfl, rfl, rfl, rfl, rfl, rfl, rfl⟩
    · exact ⟨rfl, rfl, rfl, rfl, rfl, rfl, rfl⟩
    · exact ⟨rfl, rfl, rfl, rfl, rfl, rfl, rfl⟩
  · rintro data rfl
    exact ⟨rfl, rfl, rfl, rfl, rfl⟩

/-- C15 amended, at a response with a non-ok status. -/
theorem C15_load_outcomes_witness :
    IsFailure (.response false none) ∧
      (fetchData initialState (.response false none)).1.surveyData = [] ∧
      render (fetchData initialState (.response false none)).1 = .dashboard 0 (some 0) ∧
      Draft.render (Draft.fetchData Draft.initialState (.response false none)) =
        .error "Please try again later." ∧
      (fetchData initialState (.response true (some ageExample))).1.surveyData = ageExample :=
  ⟨Or.inr (Or.inl ⟨none, rfl⟩),
    ((C15_load_outcomes (.response false none)).1 (Or.inr (Or.inl ⟨none, rfl⟩))).2.1,
    ((C15_load_outcomes (.response false none)).1 (Or.inr (Or.inl ⟨none, rfl⟩))).2.2.1,
    ((C15_load_outcomes (.response false none)).1 (Or.inr (Or.inl ⟨none, rfl⟩))).2.2.2.2.2.2,
    ((C15_load_outcomes (.response true (some ageExample))).2 ageExample rfl).1⟩

end Dashboard
